import Mathlib

set_option maxRecDepth 1000000
set_option maxHeartbeats 4000000

/-!
Verification of the AJINEXTEK AXL motion-library header surface.

The repository consists of two C headers: AXHS.h, which declares the
status-code enumeration AXT_FUNC_RESULT, auxiliary enumerations such as
AXT_MOTION_FUNC_RETURN_MODE, and the data-transfer structures MOTION_INFO,
SIIIHBoardInfo, SCAN_RESULT and the move-parameter bundle structures; and
AXM.h, which declares 391 extern-C `__stdcall` function prototypes of the
motion driver ABI. This file embeds those declarations shallowly - the
enumerations as (name, value) lists, the structures as field-description
lists or Lean structures, and the prototypes as a list of records carrying
name, return type, calling convention and parameter list - and proves the
structural properties of the ABI from the embedding.
-/

namespace AXL

/-- One formal parameter of a C prototype (or one field of a C struct):
its source type spelling, its name, and whether that type is a pointer
type. -/
structure CParam where
  ty : String
  name : String
  ptr : Bool
deriving DecidableEq

/-- Builder for CParam, in the order the source writes it: type, name,
pointer flag. -/
def par (t n : String) (b : Bool) : CParam := CParam.mk t n b

/-- One C function prototype of AXM.h: name, return type, calling
convention, whether it lies inside the extern-C block of AXM.h, and its
parameter list. -/
structure CProto where
  name : String
  ret : String
  cc : String
  inExternC : Bool
  params : List CParam
deriving DecidableEq

/-- Builder for a prototype of AXM.h. Every prototype of AXM.h is written
`DWORD __stdcall Name(params);` inside the extern-C block, so the return
type, calling convention and block membership are fixed here and the
per-function data is the name and the parameter list. -/
def pro (n : String) (ps : List CParam) : CProto :=
  CProto.mk n "DWORD" "__stdcall" true ps

/-- Boolean test that the first character list is a prefix of the second. -/
def pfx : List Char → List Char → Bool
  | [], _ => true
  | _ :: _, [] => false
  | a :: as, b :: bs => a == b && pfx as bs

/-- Boolean test that the first character list occurs as a contiguous
substring of the second. -/
def hasSub (n : List Char) : List Char → Bool
  | [] => pfx n []
  | c :: cs => pfx n (c :: cs) || hasSub n cs

/-- Enumerators of the C enum AXT_FUNC_RESULT (AXHS.h, lines 291 to 801), as
(name, value) pairs in source order: the status-code vocabulary every AXL
function returns from. -/
def AXT_FUNC_RESULT : List (String × Nat) := [
  ("AXT_RT_SUCCESS", 0),
  ("AXT_RT_OPEN_ERROR", 1001),
  ("AXT_RT_OPEN_ALREADY", 1002),
  ("AXT_RT_NOT_INITIAL", 1052),
  ("AXT_RT_NOT_OPEN", 1053),
  ("AXT_RT_NOT_SUPPORT_VERSION", 1054),
  ("AXT_RT_LOCK_FILE_MISMATCH", 1055),
  ("AXT_RT_MASTER_VERSION_MISMATCH", 1056),
  ("AXT_RT_NOT_RUN_EZMANAGER", 1057),
  ("AXT_RT_NOT_FIND_BIN_FILE", 1058),
  ("AXT_RT_NOT_FIND_ENI_FILE", 1059),
  ("AXT_RT_NOT_FIND_CONFIG_FILE", 1060),
  ("AXT_RT_RTOS_OPEN_ERROR", 1061),
  ("AXT_RT_SLAVE_CONFIG_ERROR", 1062),
  ("AXT_RT_SLAVE_OP_TIMEOUT_WARNING", 1063),
  ("AXT_RT_SLAVE_NOT_OP", 1064),
  ("AXT_RT_RESCAN_NOT_EXIST_BOARD", 1065),
  ("AXT_RT_RESCAN_TIMEOUT", 1066),
  ("AXT_RT_BAD_PARAMETER", 1070),
  ("AXT_RT_INVALID_HARDWARE", 1100),
  ("AXT_RT_INVALID_BOARD_NO", 1101),
  ("AXT_RT_INVALID_MODULE_POS", 1102),
  ("AXT_RT_INVALID_LEVEL", 1103),
  ("AXT_RT_INVALID_VARIABLE", 1104),
  ("AXT_RT_INVALID_MODULE_NO", 1105),
  ("AXT_RT_INVALID_NO", 1106),
  ("AXT_RT_ERROR_VERSION_READ", 1151),
  ("AXT_RT_NETWORK_ERROR", 1152),
  ("AXT_RT_NETWORK_LOCK_MISMATCH", 1153),
  ("AXT_RT_1ST_BELOW_MIN_VALUE", 1160),
  ("AXT_RT_1ST_ABOVE_MAX_VALUE", 1161),
  ("AXT_RT_2ND_BELOW_MIN_VALUE", 1170),
  ("AXT_RT_2ND_ABOVE_MAX_VALUE", 1171),
  ("AXT_RT_3RD_BELOW_MIN_VALUE", 1180),
  ("AXT_RT_3RD_ABOVE_MAX_VALUE", 1181),
  ("AXT_RT_4TH_BELOW_MIN_VALUE", 1190),
  ("AXT_RT_4TH_ABOVE_MAX_VALUE", 1191),
  ("AXT_RT_5TH_BELOW_MIN_VALUE", 1200),
  ("AXT_RT_5TH_ABOVE_MAX_VALUE", 1201),
  ("AXT_RT_6TH_BELOW_MIN_VALUE", 1210),
  ("AXT_RT_6TH_ABOVE_MAX_VALUE", 1211),
  ("AXT_RT_7TH_BELOW_MIN_VALUE", 1220),
  ("AXT_RT_7TH_ABOVE_MAX_VALUE", 1221),
  ("AXT_RT_8TH_BELOW_MIN_VALUE", 1230),
  ("AXT_RT_8TH_ABOVE_MAX_VALUE", 1231),
  ("AXT_RT_9TH_BELOW_MIN_VALUE", 1240),
  ("AXT_RT_9TH_ABOVE_MAX_VALUE", 1241),
  ("AXT_RT_10TH_BELOW_MIN_VALUE", 1250),
  ("AXT_RT_10TH_ABOVE_MAX_VALUE", 1251),
  ("AXT_RT_11TH_BELOW_MIN_VALUE", 1252),
  ("AXT_RT_11TH_ABOVE_MAX_VALUE", 1253),
  ("AXT_RT_AIO_OPEN_ERROR", 2001),
  ("AXT_RT_AIO_NOT_MODULE", 2051),
  ("AXT_RT_AIO_NOT_EVENT", 2052),
  ("AXT_RT_AIO_INVALID_MODULE_NO", 2101),
  ("AXT_RT_AIO_INVALID_CHANNEL_NO", 2102),
  ("AXT_RT_AIO_INVALID_USE", 2106),
  ("AXT_RT_AIO_INVALID_TRIGGER_MODE", 2107),
  ("AXT_RT_AIO_EXTERNAL_DATA_EMPTY", 2108),
  ("AXT_RT_AIO_INVALID_VALUE", 2109),
  ("AXT_RT_AIO_UPG_ALEADY_ENABLED", 2110),
  ("AXT_RT_DIO_OPEN_ERROR", 3001),
  ("AXT_RT_DIO_NOT_MODULE", 3051),
  ("AXT_RT_DIO_NOT_INTERRUPT", 3052),
  ("AXT_RT_DIO_INVALID_MODULE_NO", 3101),
  ("AXT_RT_DIO_INVALID_OFFSET_NO", 3102),
  ("AXT_RT_DIO_INVALID_LEVEL", 3103),
  ("AXT_RT_DIO_INVALID_MODE", 3104),
  ("AXT_RT_DIO_INVALID_VALUE", 3105),
  ("AXT_RT_DIO_INVALID_USE", 3106),
  ("AXT_RT_DIO_INVALID_LINK", 3107),
  ("AXT_RT_DIO_INTERLOCK_NOT_ENABLED", 3108),
  ("AXT_RT_DIO_INTERLOCK_NOT_SAME_BOARD", 3109),
  ("AXT_RT_CNT_OPEN_ERROR", 3201),
  ("AXT_RT_CNT_NOT_MODULE", 3251),
  ("AXT_RT_CNT_NOT_INTERRUPT", 3252),
  ("AXT_RT_CNT_NOT_TRIGGER_ENABLE", 3253),
  ("AXT_RT_CNT_INVALID_MODULE_NO", 3301),
  ("AXT_RT_CNT_INVALID_CHANNEL_NO", 3302),
  ("AXT_RT_CNT_INVALID_OFFSET_NO", 3303),
  ("AXT_RT_CNT_INVALID_LEVEL", 3304),
  ("AXT_RT_CNT_INVALID_MODE", 3305),
  ("AXT_RT_CNT_INVALID_VALUE", 3306),
  ("AXT_RT_CNT_INVALID_USE", 3307),
  ("AXT_RT_CNT_CMD_EXE_TIMEOUT", 3308),
  ("AXT_RT_CNT_INVALID_VELOCITY", 3309),
  ("AXT_RT_PROTECTED_DURING_PWMENABLE", 3310),
  ("AXT_RT_CNT_INVALID_TABLEPOS", 3311),
  ("AXT_RT_CNT_DIMENSION_ERROR", 3312),
  ("AXT_RT_CNT_INVALID_RANGE", 3313),
  ("AXT_RT_COM_OPEN_ERROR", 3401),
  ("AXT_RT_COM_NOT_OPEN", 3402),
  ("AXT_RT_COM_ALREADY_IN_USE", 3403),
  ("AXT_RT_COM_NOT_MODULE", 3451),
  ("AXT_RT_COM_NOT_INTERRUPT", 3452),
  ("AXT_RT_COM_INVALID_MODULE_NO", 3501),
  ("AXT_RT_COM_INVALID_PORT_NO", 3502),
  ("AXT_RT_COM_INVALID_OFFSET_NO", 3503),
  ("AXT_RT_COM_INVALID_LEVEL", 3504),
  ("AXT_RT_COM_INVALID_MODE", 3505),
  ("AXT_RT_COM_INVALID_VALUE", 3506),
  ("AXT_RT_COM_INVALID_USE", 3507),
  ("AXT_RT_COM_INVALID_BAUDRATE", 3508),
  ("AXT_RT_MOTION_OPEN_ERROR", 4001),
  ("AXT_RT_MOTION_NOT_MODULE", 4051),
  ("AXT_RT_MOTION_NOT_INTERRUPT", 4052),
  ("AXT_RT_MOTION_NOT_INITIAL_AXIS_NO", 4053),
  ("AXT_RT_MOTION_NOT_IN_CONT_INTERPOL", 4054),
  ("AXT_RT_MOTION_NOT_PARA_READ", 4055),
  ("AXT_RT_MOTION_INVALID_AXIS_NO", 4101),
  ("AXT_RT_MOTION_INVALID_METHOD", 4102),
  ("AXT_RT_MOTION_INVALID_USE", 4103),
  ("AXT_RT_MOTION_INVALID_LEVEL", 4104),
  ("AXT_RT_MOTION_INVALID_BIT_NO", 4105),
  ("AXT_RT_MOTION_INVALID_STOP_MODE", 4106),
  ("AXT_RT_MOTION_INVALID_TRIGGER_MODE", 4107),
  ("AXT_RT_MOTION_INVALID_TRIGGER_LEVEL", 4108),
  ("AXT_RT_MOTION_INVALID_SELECTION", 4109),
  ("AXT_RT_MOTION_INVALID_TIME", 4110),
  ("AXT_RT_MOTION_INVALID_FILE_LOAD", 4111),
  ("AXT_RT_MOTION_INVALID_FILE_SAVE", 4112),
  ("AXT_RT_MOTION_INVALID_VELOCITY", 4113),
  ("AXT_RT_MOTION_INVALID_ACCELTIME", 4114),
  ("AXT_RT_MOTION_INVALID_PULSE_VALUE", 4115),
  ("AXT_RT_MOTION_INVALID_NODE_NUMBER", 4116),
  ("AXT_RT_MOTION_INVALID_TARGET", 4117),
  ("AXT_RT_MOTION_SSTOPCMD_ALREADY_IN_EXECUTION", 4150),
  ("AXT_RT_MOTION_ERROR_IN_NONMOTION", 4151),
  ("AXT_RT_MOTION_ERROR_IN_MOTION", 4152),
  ("AXT_RT_MOTION_ERROR", 4153),
  ("AXT_RT_MOTION_ERROR_GANTRY_ENABLE", 4154),
  ("AXT_RT_MOTION_ERROR_GANTRY_AXIS", 4155),
  ("AXT_RT_MOTION_ERROR_MASTER_SERVOON", 4156),
  ("AXT_RT_MOTION_ERROR_SLAVE_SERVOON", 4157),
  ("AXT_RT_MOTION_INVALID_POSITION", 4158),
  ("AXT_RT_ERROR_NOT_SAME_MODULE", 4159),
  ("AXT_RT_ERROR_NOT_SAME_BOARD", 4160),
  ("AXT_RT_ERROR_NOT_SAME_PRODUCT", 4161),
  ("AXT_RT_NOT_CAPTURED", 4162),
  ("AXT_RT_ERROR_NOT_SAME_IC", 4163),
  ("AXT_RT_ERROR_NOT_GEARMODE", 4164),
  ("AXT_ERROR_CONTI_INVALID_AXIS_NO", 4165),
  ("AXT_ERROR_CONTI_INVALID_MAP_NO", 4166),
  ("AXT_ERROR_CONTI_EMPTY_MAP_NO", 4167),
  ("AXT_RT_MOTION_ERROR_CACULATION", 4168),
  ("AXT_RT_ERROR_MOVE_SENSOR_CHECK", 4169),
  ("AXT_ERROR_HELICAL_INVALID_AXIS_NO", 4170),
  ("AXT_ERROR_HELICAL_INVALID_MAP_NO", 4171),
  ("AXT_ERROR_HELICAL_EMPTY_MAP_NO", 4172),
  ("AXT_ERROR_HELICAL_ZPOS_DISTANCE_ZERO", 4173),
  ("AXT_ERROR_SPLINE_INVALID_AXIS_NO", 4180),
  ("AXT_ERROR_SPLINE_INVALID_MAP_NO", 4181),
  ("AXT_ERROR_SPLINE_EMPTY_MAP_NO", 4182),
  ("AXT_ERROR_SPLINE_NUM_ERROR", 4183),
  ("AXT_RT_MOTION_INTERPOL_VALUE", 4184),
  ("AXT_RT_ERROR_NOT_CONTIBEGIN", 4185),
  ("AXT_RT_ERROR_NOT_CONTIEND", 4186),
  ("AXT_RT_MOTION_HOME_SEARCHING", 4201),
  ("AXT_RT_MOTION_HOME_ERROR_SEARCHING", 4202),
  ("AXT_RT_MOTION_HOME_ERROR_START", 4203),
  ("AXT_RT_MOTION_HOME_ERROR_GANTRY", 4204),
  ("AXT_RT_MOTION_READ_ALARM_WAITING", 4210),
  ("AXT_RT_MOTION_READ_ALARM_NO_REQUEST", 4211),
  ("AXT_RT_MOTION_READ_ALARM_TIMEOUT", 4212),
  ("AXT_RT_MOTION_READ_ALARM_FAILED", 4213),
  ("AXT_RT_MOTION_READ_ALARM_UNKNOWN", 4220),
  ("AXT_RT_MOTION_READ_ALARM_FILES", 4221),
  ("AXT_RT_MOTION_READ_ALARM_NOT_DETECTED", 4222),
  ("AXT_RT_MOTION_POSITION_OUTOFBOUND", 4251),
  ("AXT_RT_MOTION_PROFILE_INVALID", 4252),
  ("AXT_RT_MOTION_VELOCITY_OUTOFBOUND", 4253),
  ("AXT_RT_MOTION_MOVE_UNIT_IS_ZERO", 4254),
  ("AXT_RT_MOTION_SETTING_ERROR", 4255),
  ("AXT_RT_MOTION_IN_CONT_INTERPOL", 4256),
  ("AXT_RT_MOTION_DISABLE_TRIGGER", 4257),
  ("AXT_RT_MOTION_INVALID_CONT_INDEX", 4258),
  ("AXT_RT_MOTION_CONT_QUEUE_FULL", 4259),
  ("AXT_RT_PROTECTED_DURING_SERVOON", 4260),
  ("AXT_RT_HW_ACCESS_ERROR", 4261),
  ("AXT_RT_HW_DPRAM_CMD_WRITE_ERROR_LV1", 4262),
  ("AXT_RT_HW_DPRAM_CMD_WRITE_ERROR_LV2", 4263),
  ("AXT_RT_HW_DPRAM_CMD_WRITE_ERROR_LV3", 4264),
  ("AXT_RT_HW_DPRAM_CMD_READ_ERROR_LV1", 4265),
  ("AXT_RT_HW_DPRAM_CMD_READ_ERROR_LV2", 4266),
  ("AXT_RT_HW_DPRAM_CMD_READ_ERROR_LV3", 4267),
  ("AXT_RT_COMPENSATION_SET_PARAM_FIRST", 4300),
  ("AXT_RT_COMPENSATION_NOT_INIT", 4301),
  ("AXT_RT_COMPENSATION_POS_OUTOFBOUND", 4302),
  ("AXT_RT_COMPENSATION_BACKLASH_NOT_INIT", 4303),
  ("AXT_RT_COMPENSATION_INVALID_ENTRY", 4304),
  ("AXT_RT_SEQ_NOT_IN_SERVICE", 4400),
  ("AXT_ERROR_SEQ_INVALID_MAP_NO", 4401),
  ("AXT_ERROR_INVALID_AXIS_NO", 4402),
  ("AXT_RT_ERROR_NOT_SEQ_NODE_BEGIN", 4403),
  ("AXT_RT_ERROR_NOT_SEQ_NODE_END", 4404),
  ("AXT_RT_ERROR_NO_NODE", 4405),
  ("AXT_RT_ERROR_SEQ_STOP_TIMEOUT", 4406),
  ("AXT_RT_ERROR_INVALID_SEQ_MASTER_AXIS_NO", 4407),
  ("AXT_RT_ERROR_RING_COUNTER_ENABLE", 4420),
  ("AXT_RT_ERROR_RING_COUNTER_OUT_OF_RANGE", 4421),
  ("AXT_RT_ERROR_SOFT_LIMIT_ENABLE", 4430),
  ("AXT_RT_ERROR_SOFT_LIMIT_NEGATIVE", 4431),
  ("AXT_RT_ERROR_SOFT_LIMIT_POSITIVE", 4432),
  ("AXT_RT_M3_COMMUNICATION_FAILED", 4500),
  ("AXT_RT_MOTION_ONE_OF_AXES_IS_NOT_M3", 4501),
  ("AXT_RT_MOTION_BIGGER_VEL_THEN_MAX_VEL", 4502),
  ("AXT_RT_MOTION_SMALLER_VEL_THEN_MAX_VEL", 4503),
  ("AXT_RT_MOTION_ACCEL_MUST_BIGGER_THEN_ZERO", 4504),
  ("AXT_RT_MOTION_SMALL_ACCEL_WITH_UNIT_PULSE", 4505),
  ("AXT_RT_MOTION_INVALID_INPUT_ACCEL", 4506),
  ("AXT_RT_MOTION_SMALL_DECEL_WITH_UNIT_PULSE", 4507),
  ("AXT_RT_MOTION_INVALID_INPUT_DECEL", 4508),
  ("AXT_RT_MOTION_SAME_START_AND_CENTER_POS", 4509),
  ("AXT_RT_MOTION_INVALID_JERK", 4510),
  ("AXT_RT_MOTION_INVALID_INPUT_VALUE", 4511),
  ("AXT_RT_MOTION_NOT_SUPPORT_PROFILE", 4512),
  ("AXT_RT_MOTION_INPOS_UNUSED", 4513),
  ("AXT_RT_MOTION_AXIS_IN_SLAVE_STATE", 4514),
  ("AXT_RT_MOTION_AXES_ARE_NOT_SAME_BOARD", 4515),
  ("AXT_RT_MOTION_ERROR_IN_ALARM", 4516),
  ("AXT_RT_MOTION_ERROR_IN_EMGN", 4517),
  ("AXT_RT_MOTION_CAN_NOT_CHANGE_COORD_NO", 4518),
  ("AXT_RT_MOTION_INVALID_INTERNAL_RADIOUS", 4519),
  ("AXT_RT_MOTION_CONTI_QUEUE_FULL", 4521),
  ("AXT_RT_MOTION_SAME_START_AND_END_POSITION", 4522),
  ("AXT_RT_MOTION_INVALID_ANGLE", 4523),
  ("AXT_RT_MOTION_CONTI_QUEUE_EMPTY", 4524),
  ("AXT_RT_MOTION_ERROR_GEAR_ENABLE", 4525),
  ("AXT_RT_MOTION_ERROR_GEAR_AXIS", 4526),
  ("AXT_RT_MOTION_ERROR_NO_GANTRY_ENABLE", 4527),
  ("AXT_RT_MOTION_ERROR_NO_GEAR_ENABLE", 4528),
  ("AXT_RT_MOTION_ERROR_GANTRY_ENABLE_FULL", 4529),
  ("AXT_RT_MOTION_ERROR_GEAR_ENABLE_FULL", 4530),
  ("AXT_RT_MOTION_ERROR_NO_GANTRY_SLAVE", 4531),
  ("AXT_RT_MOTION_ERROR_NO_GEAR_SLAVE", 4532),
  ("AXT_RT_MOTION_ERROR_MASTER_SLAVE_SAME", 4533),
  ("AXT_RT_MOTION_NOT_SUPPORT_HOMESIGNAL", 4534),
  ("AXT_RT_MOTION_ERROR_NOT_SYNC_CONNECT", 4535),
  ("AXT_RT_MOTION_OVERFLOW_POSITION", 4536),
  ("AXT_RT_MOTION_ERROR_INVALID_CONTIMAPAXIS", 4537),
  ("AXT_RT_MOTION_ERROR_INVALID_CONTIMAPSIZE", 4538),
  ("AXT_RT_MOTION_ERROR_IN_SERVO_OFF", 4539),
  ("AXT_RT_MOTION_ERROR_POSITIVE_LIMIT", 4540),
  ("AXT_RT_MOTION_ERROR_NEGATIVE_LIMIT", 4541),
  ("AXT_RT_MOTION_ERROR_OVERFLOW_SWPROFILE_NUM", 4542),
  ("AXT_RT_PROTECTED_DURING_INMOTION", 4543),
  ("AXT_ERROR_SYNC_INVALID_AXIS_NO", 4600),
  ("AXT_ERROR_SYNC_INVALID_MAP_NO", 4601),
  ("AXT_ERROR_SYNC_DUPLICATED_TIME", 4602),
  ("AXT_RT_DATA_FLASH_NOT_EXIST", 5000),
  ("AXT_RT_DATA_FLASH_BUSY", 5001),
  ("AXT_RT_QUEUE_CMD_ERROR", 5010),
  ("AXT_RT_QUEUE_CMD_WAIT_ERROR", 5011),
  ("AXT_RT_QUEUE_CMD_WAIT_TIMEOUT", 5012),
  ("AXT_RT_QUEUE_RSP_ERROR", 5015),
  ("AXT_RT_QUEUE_RSP_WAIT_ERROR", 5016),
  ("AXT_RT_QUEUE_RSP_WAIT_TIMEOUT", 5017),
  ("AXT_RT_MOTION_STILL_CONTI_MOTION", 5018),
  ("AXT_RT_MOTION_INVALD_SET", 6000),
  ("AXT_RT_MOTION_INVALD_RESET", 6001),
  ("AXT_RT_MOTION_INVALD_ENABLE", 6002),
  ("AXT_RT_LICENSE_INVALID", 6500),
  ("AXT_RT_MONITOR_IN_OPERATION", 6600),
  ("AXT_RT_MONITOR_NOT_OPERATION", 6601),
  ("AXT_RT_MONITOR_EMPTY_QUEUE", 6602),
  ("AXT_RT_MONITOR_INVALID_TRIGGER_OPTION", 6603),
  ("AXT_RT_MONITOR_EMPTY_ITEM", 6604),
  ("AXT_RT_MACRO_INVALID_MACRO_NO", 6700),
  ("AXT_RT_MACRO_INVALID_NODE_NO", 6701),
  ("AXT_RT_MACRO_INVALID_STOP_MODE", 6702),
  ("AXT_RT_MACRO_MEMORY_MISMATCH", 6703),
  ("AXT_RT_MACRO_CONTROL_LOCKED", 6704),
  ("AXT_RT_MACRO_INVALID_STATUS", 6705),
  ("AXT_RT_MACRO_INVALID_ARGUMENT", 6706),
  ("AXT_RT_MACRO_NOT_NODE_BEGIN", 6710),
  ("AXT_RT_MACRO_NOT_NODE_END", 6711),
  ("AXT_RT_MACRO_ALREADY_BEGIN", 6712),
  ("AXT_RT_MACRO_NODE_EMPTY", 6713),
  ("AXT_RT_MACRO_IN_OPERATION", 6714),
  ("AXT_RT_MACRO_NOT_OPERATION", 6715),
  ("AXT_RT_MACRO_NOT_SUPPORT_FUNCTION", 6716),
  ("AXT_RT_MACRO_NODE_FULL", 6717),
  ("AXT_RT_MACRO_NODE_CHECK_ERROR", 6720),
  ("AXT_RT_MACRO_NOT_CHECKED", 6721),
  ("AXT_RT_MACRO_NOT_PAUSED", 6722),
  ("AXT_MK_RT_INVALID_AXIS", 7100),
  ("AXT_MK_RT_INVALID_AXIS_SIZE", 7101),
  ("AXT_MK_RT_INVALID_COORD", 7102),
  ("AXT_MK_RT_INVALID_COORD_SIZE", 7103),
  ("AXT_MK_RT_INVALID_AXIS_MAP", 7104),
  ("AXT_MK_RT_INVALID_AXIS_MAP_SIZE", 7105),
  ("AXT_MK_RT_INVALID_VEL", 7106),
  ("AXT_MK_RT_INVALID_END_VEL", 7107),
  ("AXT_MK_RT_INVALID_ACCEL", 7108),
  ("AXT_MK_RT_INVALID_DECEL", 7109),
  ("AXT_MK_RT_INVALID_ABS_REL", 7110),
  ("AXT_MK_RT_INVALID_PROFILE", 7111),
  ("AXT_MK_RT_INVALID_STOP_DECEL", 7112),
  ("AXT_MK_RT_INVALID_STOP_TIME", 7113),
  ("AXT_MK_RT_INVALID_ACCEL_JERK_RATE", 7114),
  ("AXT_MK_RT_INVALID_DECEL_JERK_RATE", 7115),
  ("AXT_MK_RT_INVALID_ACCEL_UNIT", 7116),
  ("AXT_MK_RT_INVALID_DISTANCE", 7117),
  ("AXT_MK_RT_INVALID_ANGLE", 7118),
  ("AXT_MK_RT_INVALID_BIT", 7119),
  ("AXT_MK_RT_INVALID_PORT", 7120),
  ("AXT_MK_RT_INVALID_SPLINE_INDEX", 7121),
  ("AXT_MK_RT_INVALID_THREAD", 7122),
  ("AXT_MK_RT_INVALID_TIMER", 7123),
  ("AXT_MK_RT_INVALID_SEGMENT_COUNT", 7124),
  ("AXT_MK_RT_INVALID_SEGMENT_NO", 7125),
  ("AXT_MK_RT_INVALID_NODE_NO", 7126),
  ("AXT_MK_RT_INVALID_HWQ_COUNT", 7127),
  ("AXT_MK_RT_INVALID_NODE_SIZE", 7128),
  ("AXT_MK_RT_INVALID_STOP_NODE_SIZE", 7129),
  ("AXT_MK_RT_INVALID_SPLINE_SIZE", 7130),
  ("AXT_MK_RT_INVALID_LINE_LINE_FILLET", 7131),
  ("AXT_MK_RT_INVALID_LINE_ARC_FILLET", 7132),
  ("AXT_MK_RT_INVALID_ARC_LINE_FILLET", 7133),
  ("AXT_MK_RT_INVALID_ARC_ARC_FILLET", 7134),
  ("AXT_MK_RT_INVALID_RESET_FILLET", 7135),
  ("AXT_MK_RT_INVALID_TASK", 7136),
  ("AXT_MK_RT_INVALID_ROUND_INDEX", 7137),
  ("AXT_MK_RT_INVALID_LOG_DATA", 7138),
  ("AXT_MK_RT_INVALID_LOG10_DATA", 7139),
  ("AXT_MK_RT_INVALID_PORT_NO", 7140),
  ("AXT_MK_RT_INVALID_BAUD_RATE", 7141),
  ("AXT_MK_RT_INVALID_STOP_BIT", 7142),
  ("AXT_MK_RT_INVALID_PARITY", 7143),
  ("AXT_MK_RT_INVALID_EDGE", 7144),
  ("AXT_MK_RT_INVALID_STOP_MODE", 7145),
  ("AXT_MK_RT_INVALID_TRIGGER_TIME", 7146),
  ("AXT_MK_RT_INVALID_TRIGGER_LEVEL", 7147),
  ("AXT_MK_RT_INVALID_TRIGGER_SELECT", 7148),
  ("AXT_MK_RT_INVALID_TRIGGER_INTERRUPT", 7149),
  ("AXT_MK_RT_INVALID_TRIGGER_METHOD", 7150),
  ("AXT_MK_RT_INVALID_TRIGGER_POSITION", 7151),
  ("AXT_MK_RT_INVALID_TRIGGER_INDEX", 7152),
  ("AXT_MK_RT_INVALID_ECAM_DATA", 7153),
  ("AXT_MK_RT_INVALID_ECAM_POSITION", 7154),
  ("AXT_MK_RT_INVALID_EGEAR_SIZE", 7155),
  ("AXT_MK_RT_INVALID_INDEX", 7156),
  ("AXT_MK_RT_INVALID_MOTION_MODE", 7157),
  ("AXT_MK_RT_INVALID_SIGNAL", 7158),
  ("AXT_MK_RT_INVALID_STOP_DISTANCE", 7159),
  ("AXT_MK_RT_INVALID_DIRECTION", 7160),
  ("AXT_MK_RT_INVALID_ZERO_VELOCITY", 7161),
  ("AXT_MK_RT_INVALID_COORDINATE_INMOTION", 7162),
  ("AXT_MK_RT_INVALID_COORDINATE_MOTIONDONE", 7163),
  ("AXT_MK_RT_INVALID_BLENDING_MODE", 7164),
  ("AXT_MK_RT_INVALID_BLENDING_VALUE", 7165),
  ("AXT_MK_RT_INVALID_BLENDING_RATIO", 7166),
  ("AXT_MK_RT_INVALID_EGEAR_RATIO", 7167),
  ("AXT_MK_RT_INVALID_SLAVE_AXIS", 7168),
  ("AXT_MK_RT_INVALID_OPERATION_MODE", 7169),
  ("AXT_MK_RT_INVALID_CONTIQ_DISABLE", 7170),
  ("AXT_MK_RT_INVALID_CONTIQ_MODE", 7171),
  ("AXT_MK_RT_INVALID_CONTIQ_ANGLE", 7172),
  ("AXT_MK_RT_INVALID_CONTIQ_VELRATE", 7173),
  ("AXT_MK_RT_INVALID_CONTIQ_FILLET", 7174),
  ("AXT_MK_RT_CONTIQ_AUTO_VEL", 7175),
  ("AXT_MK_RT_CONTIQ_AUTO_ARC", 7176),
  ("AXT_MK_RT_CONTIQ_LINE", 7177),
  ("AXT_MK_RT_CONTIQ_CIRCLE", 7178),
  ("AXT_MK_RT_CONTIQ_ARC", 7179),
  ("AXT_MK_RT_CONTIQ_SYNC_SLAVE", 7180),
  ("AXT_MK_RT_INVALID_SEGMENT_OUTPUT_SIZE", 7181),
  ("AXT_MK_RT_INVALID_SEGMENT_NUMBER", 7182),
  ("AXT_MK_RT_INVALID_TRIG_COUNT", 7183),
  ("AXT_MK_RT_INVALID_TRIG_TIME", 7184),
  ("AXT_MK_RT_NOT_CAPTURED", 7185),
  ("AXT_MK_RT_INVALID_CAPTURE_INDEX", 7186),
  ("AXT_MK_RT_INVALID_LEVEL", 7187),
  ("AXT_MK_RT_INVALID_SEGMENT_OUTPUT_MODE", 7188),
  ("AXT_MK_RT_INVALID_SEGMENT_OUTPUT_VALUE", 7189),
  ("AXT_MK_RT_INVALID_SEGMENT_OUTPUT_RATIO", 7190),
  ("AXT_MK_RT_INVALID_SPLINE_POINT_SIZE", 7191),
  ("AXT_MK_RT_INVALID_INMOTION", 7192),
  ("AXT_MK_RT_ENABLE_CONTIQ", 7200),
  ("AXT_MK_RT_DISABLE_CONTIQ", 7201),
  ("AXT_MK_RT_ENABLE_CONTIQ_SYNC", 7202),
  ("AXT_MK_RT_DISABLE_CONTIQ_SYNC", 7203),
  ("AXT_MK_RT_ENABLE_CONTI", 7204),
  ("AXT_MK_RT_DISABLE_CONTI", 7205),
  ("AXT_MK_RT_ENABLE_EGEAR", 7206),
  ("AXT_MK_RT_DISABLE_EGEAR", 7207),
  ("AXT_MK_RT_ENABLE_TASK", 7208),
  ("AXT_MK_RT_DISABLE_TASK", 7209),
  ("AXT_MK_RT_DISABLE_PORT_NO", 7210),
  ("AXT_MK_RT_ALREADY_OPEN", 7300),
  ("AXT_MK_RT_ALREADY_CLOSE", 7301),
  ("AXT_MK_RT_ERROR_HOME", 7400),
  ("AXT_MK_RT_ERROR_MOTION", 7401),
  ("AXT_MK_RT_ERROR_INSTOPPING", 7402),
  ("AXT_MK_RT_ERROR_TIME_OUT", 7403),
  ("AXT_MK_RT_ERROR_BUFFER_FULL", 7404),
  ("AXT_MK_RT_ERROR_DATA_CREATE", 7405),
  ("AXT_MK_RT_ERROR_CALCULATION", 7406),
  ("AXT_MK_RT_ERROR_QUEUE_FULL", 7500),
  ("AXT_MK_RT_ERROR_QUEUE_NULL", 7501),
  ("AXT_MK_RT_ERROR_ECAM_TABLE", 7502),
  ("AXT_MK_RT_ERROR_SPLINE_POSITION", 7503),
  ("AXT_MK_RT_INVALID_CIRCULAR_POINT", 7510),
  ("AXT_MK_RT_INVALID_POINT", 7511),
  ("AXT_MK_RT_INVALID_QUEUE_SIZE", 7512),
  ("AXT_MK_RT_INVALID_POSITION", 7513),
  ("AXT_MK_RT_INVALID_ROTATION", 7514),
  ("AXT_MK_RT_INVALID_TABLE", 7600),
  ("AXT_MK_RT_INVALID_TABLE_NO", 7601),
  ("AXT_MK_RT_INVALID_TABLE_DATA", 7602),
  ("AXT_MK_RT_INVALID_POSITION_SIZE", 7603),
  ("AXT_MK_RT_INVALID_TABLE_ENABLED", 7604),
  ("AXT_MK_RT_INVALID_TABLE_NOT_ENABLED", 7605),
  ("AXT_MK_RT_INVALID_TABLE_NONE", 7606),
  ("AXT_MK_RT_INVALID_GET_TABLE", 7607),
  ("AXT_MK_RT_INVALID_ENABLE_TABLE", 7608),
  ("AXT_MK_RT_INVALID_DISABLE_TABLE", 7609),
  ("AXT_MK_RT_INVALID_SET", 7610),
  ("AXT_MK_RT_INVALID_RESET", 7611),
  ("AXT_MK_RT_INVALID_ENABLE", 7612),
  ("AXT_MK_RT_INVALID_ROBOT_SIZE", 7700),
  ("AXT_MK_RT_INVALID_ROBOT_AXIS_SIZE", 7701),
  ("AXT_MK_RT_INVALID_ROBOT_COORD_SIZE", 7702),
  ("AXT_MK_RT_INVALID_ROBOT_NO", 7703),
  ("AXT_MK_RT_INVALID_ROBOT_COORD", 7704),
  ("AXT_MK_RT_INVALID_ROBOT_LIMIT", 7705),
  ("AXT_MK_RT_INVALID_ROBOT_POS_LIMIT", 7706),
  ("AXT_MK_RT_INVALID_ROBOT_NEG_LIMIT", 7707),
  ("AXT_MK_RT_INVALID_ROBOT_VEL_LIMIT", 7708),
  ("AXT_MK_RT_INVALID_ROBOT_ACCEL_LIMIT", 7709),
  ("AXT_MK_RT_INVALID_ROBOT_DECEL_LIMIT", 7710),
  ("AXT_MK_RT_ERROR_ROBOT_CALCULATION", 7711),
  ("AXT_MK_RT_INVALID_FRAME", 7712),
  ("AXT_MK_RT_INVALID_FRAME_NO", 7713),
  ("AXT_MK_RT_INVALID_FRAME_TYPE", 7714),
  ("AXT_MK_RT_INVALID_OBJECT_NO", 7715),
  ("AXT_MK_RT_INVALID_ROBOT_SYNC", 7716),
  ("AXT_MK_RT_INVALID_ROBOT_SYNC_MOTION", 7717),
  ("AXT_MK_RT_INVALID_ROBOT_SYNC_ENABLE", 7718),
  ("AXT_MK_RT_INVALID_ROBOT_SYNC_DISABLE", 7719),
  ("AXT_MK_RT_INVALID_ROBOT_SYNC_MOTION_MODE", 7720),
  ("AXT_MK_RT_INVALID_ROBOT_SYNC_WORK_COORD", 7721),
  ("AXT_MK_RT_INVALID_CAPTURE_POS_NO", 7722),
  ("AXT_MK_RT_INVALID_ROBOT_CAPTURE_POS", 7730),
  ("AXT_MK_RT_INVALID_ROBOT_AXIS", 7731),
  ("AXT_MK_RT_INVALID_WORK_NEGATIVE_LIMIT", 7732),
  ("AXT_MK_RT_INVALID_WORK_POSITIVE_LIMIT", 7733),
  ("AXT_MK_RT_INVALID_TOOL_NO", 7740),
  ("AXT_MK_RT_INVALID_FREQUENCY_SIZE", 7800),
  ("AXT_MK_RT_INVALID_IMPULSE_COUNT", 7801),
  ("AXT_MK_RT_INVALID_AMPLITUDE", 7802),
  ("AXT_MK_RT_INVALID_INPUT_SHAPER__NONE", 7803),
  ("AXT_MK_RT_INVALID_INPUT_SHAPER_ENABLED", 7804),
  ("AXT_MK_RT_INVALID_ARRAY_SIZE", 7805),
  ("AXT_MK_RT_NOT_SUPPORT", 7900),
  ("AXT_MK_RT_ERROR", 7901),
  ("AXT_MK_RT_INVLID_FUNCTION_TYPE", 7902)
]

/-- Enumerators of the C enum AXT_MOTION_FUNC_RETURN_MODE (AXHS.h, lines 1738
to 1743). -/
def AXT_MOTION_FUNC_RETURN_MODE : List (String × Nat) := [
  ("FUNC_RETURN_IMMEDIATE", 0),
  ("FUNC_RETURN_BLOCKING", 1),
  ("FUNC_RETURN_NON_BLOCKING", 2)
]

/-- All 391 function prototypes of AXM.h, in source order. Each source line reads
"DWORD  __stdcall  Name(params);" and lies between the opening of the single
extern-C block of AXM.h at line 46 and its closing at line 2005, which the
inExternC field records. A parameter ptr flag is true exactly when its source
type is a pointer type: it carries a star, or it is PMOTION_INFO (declared
"MOTION_INFO, *PMOTION_INFO" in AXHS.h) or the function-pointer typedef
AXT_INTERRUPT_PROC (AXHS.h line 2591). -/
def axmProtos : List CProto := [
  pro "AxmInfoGetAxis" [par "long" "lAxisNo" false, par "long*" "lpBoardNo" true, par "long*" "lpModulePos" true, par "DWORD*" "upModuleID" true],
  pro "AxmInfoIsMotionModule" [par "DWORD*" "upStatus" true],
  pro "AxmInfoIsInvalidAxisNo" [par "long" "lAxisNo" false],
  pro "AxmInfoGetAxisStatus" [par "long" "lAxisNo" false],
  pro "AxmInfoGetAxisCount" [par "long*" "lpAxisCount" true],
  pro "AxmInfoGetFirstAxisNo" [par "long" "lBoardNo" false, par "long" "lModulePos" false, par "long*" "lpAxisNo" true],
  pro "AxmInfoGetBoardFirstAxisNo" [par "long" "lBoardNo" false, par "long" "lModulePos" false, par "long*" "lpAxisNo" true],
  pro "AxmVirtualSetAxisNoMap" [par "long" "lRealAxisNo" false, par "long" "lVirtualAxisNo" false],
  pro "AxmVirtualGetAxisNoMap" [par "long" "lRealAxisNo" false, par "long*" "lpVirtualAxisNo" true],
  pro "AxmVirtualSetMultiAxisNoMap" [par "long" "lSize" false, par "long*" "lpRealAxesNo" true, par "long*" "lpVirtualAxesNo" true],
  pro "AxmVirtualGetMultiAxisNoMap" [par "long" "lSize" false, par "long*" "lpRealAxesNo" true, par "long*" "lpVirtualAxesNo" true],
  pro "AxmVirtualResetAxisMap" [],
  pro "AxmInterruptSetAxis" [par "long" "lAxisNo" false, par "HWND" "hWnd" false, par "DWORD" "uMessage" false, par "AXT_INTERRUPT_PROC" "pProc" true, par "HANDLE*" "pEvent" true],
  pro "AxmInterruptSetAxisEnable" [par "long" "lAxisNo" false, par "DWORD" "uUse" false],
  pro "AxmInterruptGetAxisEnable" [par "long" "lAxisNo" false, par "DWORD*" "upUse" true],
  pro "AxmInterruptRead" [par "long*" "lpAxisNo" true, par "DWORD*" "upFlag" true],
  pro "AxmInterruptReadAxisFlag" [par "long" "lAxisNo" false, par "long" "lBank" false, par "DWORD*" "upFlag" true],
  pro "AxmInterruptSetUserEnable" [par "long" "lAxisNo" false, par "long" "lBank" false, par "DWORD" "uInterruptNum" false],
  pro "AxmInterruptGetUserEnable" [par "long" "lAxisNo" false, par "long" "lBank" false, par "DWORD*" "upInterruptNum" true],
  pro "AxmInterruptSetCNTComparator" [par "long" "lAxisNo" false, par "long" "lComparatorNo" false, par "double" "dPosition" false],
  pro "AxmInterruptGetCNTComparator" [par "long" "lAxisNo" false, par "long" "lComparatorNo" false, par "double*" "dpPosition" true],
  pro "AxmMotGetFileName" [par "char*" "szFileName" true],
  pro "AxmMotLoadParaAll" [par "char*" "szFilePath" true],
  pro "AxmMotSaveParaAll" [par "char*" "szFilePath" true],
  pro "AxmMotSetParaLoad" [par "long" "lAxisNo" false, par "double" "dInitPos" false, par "double" "dInitVel" false, par "double" "dInitAccel" false, par "double" "dInitDecel" false],
  pro "AxmMotGetParaLoad" [par "long" "lAxisNo" false, par "double*" "dpInitPos" true, par "double*" "dpInitVel" true, par "double*" "dpInitAccel" true, par "double*" "dpInitDecel" true],
  pro "AxmMotSetPulseOutMethod" [par "long" "lAxisNo" false, par "DWORD" "uMethod" false],
  pro "AxmMotGetPulseOutMethod" [par "long" "lAxisNo" false, par "DWORD*" "upMethod" true],
  pro "AxmMotSetEncInputMethod" [par "long" "lAxisNo" false, par "DWORD" "uMethod" false],
  pro "AxmMotGetEncInputMethod" [par "long" "lAxisNo" false, par "DWORD*" "upMethod" true],
  pro "AxmMotSetMoveUnitPerPulse" [par "long" "lAxisNo" false, par "double" "dUnit" false, par "long" "lPulse" false],
  pro "AxmMotGetMoveUnitPerPulse" [par "long" "lAxisNo" false, par "double*" "dpUnit" true, par "long*" "lpPulse" true],
  pro "AxmMotSetDecelMode" [par "long" "lAxisNo" false, par "DWORD" "uMethod" false],
  pro "AxmMotGetDecelMode" [par "long" "lAxisNo" false, par "DWORD*" "upMethod" true],
  pro "AxmMotSetRemainPulse" [par "long" "lAxisNo" false, par "DWORD" "uData" false],
  pro "AxmMotGetRemainPulse" [par "long" "lAxisNo" false, par "DWORD*" "upData" true],
  pro "AxmMotSetMaxVel" [par "long" "lAxisNo" false, par "double" "dVel" false],
  pro "AxmMotGetMaxVel" [par "long" "lAxisNo" false, par "double*" "dpVel" true],
  pro "AxmMotSetAbsRelMode" [par "long" "lAxisNo" false, par "DWORD" "uAbsRelMode" false],
  pro "AxmMotGetAbsRelMode" [par "long" "lAxisNo" false, par "DWORD*" "upAbsRelMode" true],
  pro "AxmMotSetProfileMode" [par "long" "lAxisNo" false, par "DWORD" "uProfileMode" false],
  pro "AxmMotGetProfileMode" [par "long" "lAxisNo" false, par "DWORD*" "upProfileMode" true],
  pro "AxmMotSetAccelUnit" [par "long" "lAxisNo" false, par "DWORD" "uAccelUnit" false],
  pro "AxmMotGetAccelUnit" [par "long" "lAxisNo" false, par "DWORD*" "upAccelUnit" true],
  pro "AxmMotSetMinVel" [par "long" "lAxisNo" false, par "double" "dMinVel" false],
  pro "AxmMotGetMinVel" [par "long" "lAxisNo" false, par "double*" "dpMinVel" true],
  pro "AxmMotSetAccelJerk" [par "long" "lAxisNo" false, par "double" "dAccelJerk" false],
  pro "AxmMotGetAccelJerk" [par "long" "lAxisNo" false, par "double*" "dpAccelJerk" true],
  pro "AxmMotSetDecelJerk" [par "long" "lAxisNo" false, par "double" "dDecelJerk" false],
  pro "AxmMotGetDecelJerk" [par "long" "lAxisNo" false, par "double*" "dpDecelJerk" true],
  pro "AxmMotSetProfilePriority" [par "long" "lAxisNo" false, par "DWORD" "uPriority" false],
  pro "AxmMotGetProfilePriority" [par "long" "lAxisNo" false, par "DWORD*" "upPriority" true],
  pro "AxmSignalSetZphaseLevel" [par "long" "lAxisNo" false, par "DWORD" "uLevel" false],
  pro "AxmSignalGetZphaseLevel" [par "long" "lAxisNo" false, par "DWORD*" "upLevel" true],
  pro "AxmSignalSetServoOnLevel" [par "long" "lAxisNo" false, par "DWORD" "uLevel" false],
  pro "AxmSignalGetServoOnLevel" [par "long" "lAxisNo" false, par "DWORD*" "upLevel" true],
  pro "AxmSignalSetServoAlarmResetLevel" [par "long" "lAxisNo" false, par "DWORD" "uLevel" false],
  pro "AxmSignalGetServoAlarmResetLevel" [par "long" "lAxisNo" false, par "DWORD*" "upLevel" true],
  pro "AxmSignalSetInpos" [par "long" "lAxisNo" false, par "DWORD" "uUse" false],
  pro "AxmSignalGetInpos" [par "long" "lAxisNo" false, par "DWORD*" "upUse" true],
  pro "AxmSignalReadInpos" [par "long" "lAxisNo" false, par "DWORD*" "upStatus" true],
  pro "AxmSignalSetServoAlarm" [par "long" "lAxisNo" false, par "DWORD" "uUse" false],
  pro "AxmSignalGetServoAlarm" [par "long" "lAxisNo" false, par "DWORD*" "upUse" true],
  pro "AxmSignalReadServoAlarm" [par "long" "lAxisNo" false, par "DWORD*" "upStatus" true],
  pro "AxmSignalSetLimit" [par "long" "lAxisNo" false, par "DWORD" "uStopMode" false, par "DWORD" "uPositiveLevel" false, par "DWORD" "uNegativeLevel" false],
  pro "AxmSignalGetLimit" [par "long" "lAxisNo" false, par "DWORD*" "upStopMode" true, par "DWORD*" "upPositiveLevel" true, par "DWORD*" "upNegativeLevel" true],
  pro "AxmSignalReadLimit" [par "long" "lAxisNo" false, par "DWORD*" "upPositiveStatus" true, par "DWORD*" "upNegativeStatus" true],
  pro "AxmSignalSetSoftLimit" [par "long" "lAxisNo" false, par "DWORD" "uUse" false, par "DWORD" "uStopMode" false, par "DWORD" "uSelection" false, par "double" "dPositivePos" false, par "double" "dNegativePos" false],
  pro "AxmSignalGetSoftLimit" [par "long" "lAxisNo" false, par "DWORD*" "upUse" true, par "DWORD*" "upStopMode" true, par "DWORD*" "upSelection" true, par "double*" "dpPositivePos" true, par "double*" "dpNegativePos" true],
  pro "AxmSignalReadSoftLimit" [par "long" "lAxisNo" false, par "DWORD*" "upPositiveStatus" true, par "DWORD*" "upNegativeStatus" true],
  pro "AxmSignalSetStop" [par "long" "lAxisNo" false, par "DWORD" "uStopMode" false, par "DWORD" "uLevel" false],
  pro "AxmSignalGetStop" [par "long" "lAxisNo" false, par "DWORD*" "upStopMode" true, par "DWORD*" "upLevel" true],
  pro "AxmSignalReadStop" [par "long" "lAxisNo" false, par "DWORD*" "upStatus" true],
  pro "AxmSignalServoOn" [par "long" "lAxisNo" false, par "DWORD" "uOnOff" false],
  pro "AxmSignalIsServoOn" [par "long" "lAxisNo" false, par "DWORD*" "upOnOff" true],
  pro "AxmSignalServoAlarmReset" [par "long" "lAxisNo" false, par "DWORD" "uOnOff" false],
  pro "AxmSignalWriteOutput" [par "long" "lAxisNo" false, par "DWORD" "uValue" false],
  pro "AxmSignalReadOutput" [par "long" "lAxisNo" false, par "DWORD*" "upValue" true],
  pro "AxmSignalWriteBrakeOn" [par "long" "lAxisNo" false, par "DWORD" "uOnOff" false],
  pro "AxmSignalReadBrakeOn" [par "long" "lAxisNo" false, par "DWORD*" "upOnOff" true],
  pro "AxmSignalWriteOutputBit" [par "long" "lAxisNo" false, par "long" "lBitNo" false, par "DWORD" "uOnOff" false],
  pro "AxmSignalReadOutputBit" [par "long" "lAxisNo" false, par "long" "lBitNo" false, par "DWORD*" "upOnOff" true],
  pro "AxmSignalReadInput" [par "long" "lAxisNo" false, par "DWORD*" "upValue" true],
  pro "AxmSignalReadInputBit" [par "long" "lAxisNo" false, par "long" "lBitNo" false, par "DWORD*" "upOn" true],
  pro "AxmSignalSetFilterBandwidth" [par "long" "lAxisNo" false, par "DWORD" "uSignal" false, par "double" "dBandwidthUsec" false],
  pro "AxmSignalOutputOn" [par "long" "lAxisNo" false, par "long" "lArraySize" false, par "long*" "lpBitNo" true, par "long" "lmSec" false],
  pro "AxmSignalOutputOff" [par "long" "lAxisNo" false, par "long" "lArraySize" false, par "long*" "lpBitNo" true, par "long" "lmSec" false],
  pro "AxmStatusReadInMotion" [par "long" "lAxisNo" false, par "DWORD*" "upStatus" true],
  pro "AxmStatusReadDrivePulseCount" [par "long" "lAxisNo" false, par "long*" "lpPulse" true],
  pro "AxmStatusReadMotion" [par "long" "lAxisNo" false, par "DWORD*" "upStatus" true],
  pro "AxmStatusReadStop" [par "long" "lAxisNo" false, par "DWORD*" "upStatus" true],
  pro "AxmStatusReadMechanical" [par "long" "lAxisNo" false, par "DWORD*" "upStatus" true],
  pro "AxmStatusReadVel" [par "long" "lAxisNo" false, par "double*" "dpVel" true],
  pro "AxmStatusReadPosError" [par "long" "lAxisNo" false, par "double*" "dpError" true],
  pro "AxmStatusReadDriveDistance" [par "long" "lAxisNo" false, par "double*" "dpUnit" true],
  pro "AxmStatusSetPosType" [par "long" "lAxisNo" false, par "DWORD" "uPosType" false, par "double" "dPositivePos" false, par "double" "dNegativePos" false],
  pro "AxmStatusGetPosType" [par "long" "lAxisNo" false, par "DWORD*" "upPosType" true, par "double*" "dpPositivePos" true, par "double*" "dpNegativePos" true],
  pro "AxmStatusSetAbsOrgOffset" [par "long" "lAxisNo" false, par "double" "dOrgOffsetPos" false],
  pro "AxmStatusSetActPos" [par "long" "lAxisNo" false, par "double" "dPos" false],
  pro "AxmStatusGetActPos" [par "long" "lAxisNo" false, par "double*" "dpPos" true],
  pro "AxmStatusGetAmpActPos" [par "long" "lAxisNo" false, par "double*" "dpPos" true],
  pro "AxmStatusSetCmdPos" [par "long" "lAxisNo" false, par "double" "dPos" false],
  pro "AxmStatusGetCmdPos" [par "long" "lAxisNo" false, par "double*" "dpPos" true],
  pro "AxmStatusSetPosMatch" [par "long" "lAxisNo" false, par "double" "dPos" false],
  pro "AxmStatusReadMotionInfo" [par "long" "lAxisNo" false, par "PMOTION_INFO" "pMI" true],
  pro "AxmStatusRequestServoAlarm" [par "long" "lAxisNo" false],
  pro "AxmStatusReadServoAlarm" [par "long" "lAxisNo" false, par "DWORD" "uReturnMode" false, par "DWORD*" "upAlarmCode" true],
  pro "AxmStatusGetServoAlarmString" [par "long" "lAxisNo" false, par "DWORD" "uAlarmCode" false, par "long" "lAlarmStringSize" false, par "char*" "szAlarmString" true],
  pro "AxmStatusRequestServoAlarmHistory" [par "long" "lAxisNo" false],
  pro "AxmStatusReadServoAlarmHistory" [par "long" "lAxisNo" false, par "DWORD" "uReturnMode" false, par "long*" "lpCount" true, par "DWORD*" "upAlarmCode" true],
  pro "AxmStatusClearServoAlarmHistory" [par "long" "lAxisNo" false],
  pro "AxmHomeSetSignalLevel" [par "long" "lAxisNo" false, par "DWORD" "uLevel" false],
  pro "AxmHomeGetSignalLevel" [par "long" "lAxisNo" false, par "DWORD*" "upLevel" true],
  pro "AxmHomeReadSignal" [par "long" "lAxisNo" false, par "DWORD*" "upStatus" true],
  pro "AxmHomeSetMethod" [par "long" "lAxisNo" false, par "long" "lHmDir" false, par "DWORD" "uHomeSignal" false, par "DWORD" "uZphas" false, par "double" "dHomeClrTime" false, par "double" "dHomeOffset" false],
  pro "AxmHomeGetMethod" [par "long" "lAxisNo" false, par "long*" "lpHmDir" true, par "DWORD*" "upHomeSignal" true, par "DWORD*" "upZphas" true, par "double*" "dpHomeClrTime" true, par "double*" "dpHomeOffset" true],
  pro "AxmHomeSetFineAdjust" [par "long" "lAxisNo" false, par "double" "dHomeDogLength" false, par "long" "lLevelScanTime" false, par "DWORD" "uFineSearchUse" false, par "DWORD" "uHomeClrUse" false],
  pro "AxmHomeGetFineAdjust" [par "long" "lAxisNo" false, par "double*" "dpHomeDogLength" true, par "long*" "lpLevelScanTime" true, par "DWORD*" "upFineSearchUse" true, par "DWORD*" "upHomeClrUse" true],
  pro "AxmHomeSetInterlock" [par "long" "lAxisNo" false, par "DWORD" "uInterlockMode" false, par "double" "dInterlockData" false],
  pro "AxmHomeGetInterlock" [par "long" "lAxisNo" false, par "DWORD*" "upInterlockMode" true, par "double*" "dpInterlockData" true],
  pro "AxmHomeSetVel" [par "long" "lAxisNo" false, par "double" "dVelFirst" false, par "double" "dVelSecond" false, par "double" "dVelThird" false, par "double" "dVelLast" false, par "double" "dAccFirst" false, par "double" "dAccSecond" false],
  pro "AxmHomeGetVel" [par "long" "lAxisNo" false, par "double*" "dpVelFirst" true, par "double*" "dpVelSecond" true, par "double*" "dpVelThird" true, par "double*" "dpVelLast" true, par "double*" "dpAccFirst" true, par "double*" "dpAccSecond" true],
  pro "AxmHomeSetStart" [par "long" "lAxisNo" false],
  pro "AxmHomeSetResult" [par "long" "lAxisNo" false, par "DWORD" "uHomeResult" false],
  pro "AxmHomeGetResult" [par "long" "lAxisNo" false, par "DWORD*" "upHomeResult" true],
  pro "AxmHomeGetRate" [par "long" "lAxisNo" false, par "DWORD*" "upHomeMainStepNumber" true, par "DWORD*" "upHomeStepNumber" true],
  pro "AxmMoveStartPos" [par "long" "lAxisNo" false, par "double" "dPos" false, par "double" "dVel" false, par "double" "dAccel" false, par "double" "dDecel" false],
  pro "AxmMovePos" [par "long" "lAxisNo" false, par "double" "dPos" false, par "double" "dVel" false, par "double" "dAccel" false, par "double" "dDecel" false],
  pro "AxmMoveVel" [par "long" "lAxisNo" false, par "double" "dVel" false, par "double" "dAccel" false, par "double" "dDecel" false],
  pro "AxmMoveStartMultiVel" [par "long" "lArraySize" false, par "long*" "lpAxesNo" true, par "double*" "dpVel" true, par "double*" "dpAccel" true, par "double*" "dpDecel" true],
  pro "AxmMoveStartMultiVelEx" [par "long" "lArraySize" false, par "long*" "lpAxesNo" true, par "double*" "dpVel" true, par "double*" "dpAccel" true, par "double*" "dpDecel" true, par "DWORD" "dwSyncMode" false],
  pro "AxmMoveStartLineVel" [par "long" "lArraySize" false, par "long*" "lpAxesNo" true, par "double*" "dpDis" true, par "double" "dVel" false, par "double" "dAccel" false, par "double" "dDecel" false],
  pro "AxmMoveSignalSearch" [par "long" "lAxisNo" false, par "double" "dVel" false, par "double" "dAccel" false, par "long" "lDetectSignal" false, par "long" "lSignalEdge" false, par "long" "lSignalMethod" false],
  pro "AxmMoveSignalSearchAtDis" [par "long" "lAxisNo" false, par "double" "dVel" false, par "double" "dAccel" false, par "double" "dDecel" false, par "long" "lDetectSignal" false, par "double" "dDis" false],
  pro "AxmMoveSignalCapture" [par "long" "lAxisNo" false, par "double" "dVel" false, par "double" "dAccel" false, par "long" "lDetectSignal" false, par "long" "lSignalEdge" false, par "long" "lTarget" false, par "long" "lSignalMethod" false],
  pro "AxmMoveGetCapturePos" [par "long" "lAxisNo" false, par "double*" "dpCapPotition" true],
  pro "AxmMoveStartMultiPos" [par "long" "lArraySize" false, par "long*" "lpAxisNo" true, par "double*" "dpPos" true, par "double*" "dpVel" true, par "double*" "dpAccel" true, par "double*" "dpDecel" true],
  pro "AxmMoveMultiPos" [par "long" "lArraySize" false, par "long*" "lpAxisNo" true, par "double*" "dpPos" true, par "double*" "dpVel" true, par "double*" "dpAccel" true, par "double*" "dpDecel" true],
  pro "AxmMoveStartTorque" [par "long" "lAxisNo" false, par "double" "dTorque" false, par "double" "dVel" false, par "DWORD" "dwAccFilterSel" false, par "DWORD" "dwGainSel" false, par "DWORD" "dwSpdLoopSel" false],
  pro "AxmMoveTorqueStop" [par "long" "lAxisNo" false, par "DWORD" "dwMethod" false],
  pro "AxmMoveStartPosWithList" [par "long" "lAxisNo" false, par "double" "dPosition" false, par "double*" "dpVel" true, par "double*" "dpAccel" true, par "double*" "dpDecel" true, par "long" "lListNum" false],
  pro "AxmMoveStartPosWithPosEvent" [par "long" "lAxisNo" false, par "double" "dPos" false, par "double" "dVel" false, par "double" "dAccel" false, par "double" "dDecel" false, par "long" "lEventAxisNo" false, par "double" "dComparePosition" false, par "DWORD" "uPositionSource" false],
  pro "AxmMoveStop" [par "long" "lAxisNo" false, par "double" "dDecel" false],
  pro "AxmMoveStopEx" [par "long" "lAxisNo" false, par "double" "dDecel" false],
  pro "AxmMoveEStop" [par "long" "lAxisNo" false],
  pro "AxmMoveSStop" [par "long" "lAxisNo" false],
  pro "AxmOverridePos" [par "long" "lAxisNo" false, par "double" "dOverridePos" false],
  pro "AxmOverridePosAbs" [par "long" "lAxisNo" false, par "double" "dOverridePos" false],
  pro "AxmOverrideSetMaxVel" [par "long" "lAxisNo" false, par "double" "dOverrideMaxVel" false],
  pro "AxmOverrideVel" [par "long" "lAxisNo" false, par "double" "dOverrideVel" false],
  pro "AxmOverrideAccelVelDecel" [par "long" "lAxisNo" false, par "double" "dOverrideVelocity" false, par "double" "dMaxAccel" false, par "double" "dMaxDecel" false],
  pro "AxmOverrideVelAtPos" [par "long" "lAxisNo" false, par "double" "dPos" false, par "double" "dVel" false, par "double" "dAccel" false, par "double" "dDecel" false, par "double" "dOverridePos" false, par "double" "dOverrideVel" false, par "long" "lTarget" false],
  pro "AxmOverrideVelAtMultiPos" [par "long" "lAxisNo" false, par "double" "dPos" false, par "double" "dVel" false, par "double" "dAccel" false, par "double" "dDecel" false, par "long" "lArraySize" false, par "double*" "dpOverridePos" true, par "double*" "dpOverrideVel" true, par "long" "lTarget" false, par "DWORD" "dwOverrideMode" false],
  pro "AxmOverrideVelAtMultiPos2" [par "long" "lAxisNo" false, par "double" "dPos" false, par "double" "dVel" false, par "double" "dAccel" false, par "double" "dDecel" false, par "long" "lArraySize" false, par "double*" "dpOverridePos" true, par "double*" "dpOverrideVel" true, par "double*" "dpOverrideAccelDecel" true, par "long" "lTarget" false, par "DWORD" "dwOverrideMode" false],
  pro "AxmOverrideAccelVelDecelAtMultiPos" [par "long" "lAxisNo" false, par "double" "dPosition" false, par "double" "dVelocity" false, par "double" "dAcceleration" false, par "double" "dDeceleration" false, par "long" "lArraySize" false, par "double*" "dpOverridePosition" true, par "double*" "dpOverrideVelocity" true, par "double*" "dpOverrideAccel" true, par "double*" "dpOverrideDecel" true, par "long" "lTarget" false, par "DWORD" "dwOverrideMode" false],
  pro "AxmOverrideMultiVel" [par "long" "lArraySize" false, par "long*" "lpAxisNo" true, par "double*" "dpOverrideVel" true],
  pro "AxmLinkSetMode" [par "long" "lMasterAxisNo" false, par "long" "lSlaveAxisNo" false, par "double" "dSlaveRatio" false],
  pro "AxmLinkGetMode" [par "long" "lMasterAxisNo" false, par "long*" "lpSlaveAxisNo" true, par "double*" "dpGearRatio" true],
  pro "AxmLinkResetMode" [par "long" "lMasterAxisNo" false],
  pro "AxmGantrySetEnable" [par "long" "lMasterAxisNo" false, par "long" "lSlaveAxisNo" false, par "DWORD" "uSlHomeUse" false, par "double" "dSlOffset" false, par "double" "dSlOffsetRange" false],
  pro "AxmGantryGetEnable" [par "long" "lMasterAxisNo" false, par "DWORD*" "upSlHomeUse" true, par "double*" "dpSlOffset" true, par "double*" "dpSlORange" true, par "DWORD*" "upGatryOn" true],
  pro "AxmGantrySetDisable" [par "long" "lMasterAxisNo" false, par "long" "lSlaveAxisNo" false],
  pro "AxmGantrySetCompensationGain" [par "long" "lMasterAxisNo" false, par "long" "lMasterGain" false, par "long" "lSlaveGain" false],
  pro "AxmGantryGetCompensationGain" [par "long" "lMasterAxisNo" false, par "long*" "lpMasterGain" true, par "long*" "lpSlaveGain" true],
  pro "AxmGantrySetErrorRange" [par "long" "lMasterAxisNo" false, par "double" "dErrorRange" false, par "DWORD" "uUse" false],
  pro "AxmGantryGetErrorRange" [par "long" "lMasterAxisNo" false, par "double*" "dpErrorRange" true, par "DWORD*" "upUse" true],
  pro "AxmGantryReadErrorRangeStatus" [par "long" "lMasterAxisNo" false, par "DWORD*" "dwpStatus" true],
  pro "AxmGantryReadErrorRangeComparePos" [par "long" "lMasterAxisNo" false, par "double*" "dpComparePos" true],
  pro "AxmLineMove" [par "long" "lCoord" false, par "double*" "dpEndPos" true, par "double" "dVel" false, par "double" "dAccel" false, par "double" "dDecel" false],
  pro "AxmLineMoveEx2" [par "long" "lCoord" false, par "double*" "dpEndPos" true, par "double" "dVel" false, par "double" "dAccel" false, par "double" "dDecel" false],
  pro "AxmCircleCenterMove" [par "long" "lCoord" false, par "long*" "lAxisNo" true, par "double*" "dCenterPos" true, par "double*" "dEndPos" true, par "double" "dVel" false, par "double" "dAccel" false, par "double" "dDecel" false, par "DWORD" "uCWDir" false],
  pro "AxmCirclePointMove" [par "long" "lCoord" false, par "long*" "lAxisNo" true, par "double*" "dMidPos" true, par "double*" "dEndPos" true, par "double" "dVel" false, par "double" "dAccel" false, par "double" "dDecel" false, par "long" "lArcCircle" false],
  pro "AxmCircleRadiusMove" [par "long" "lCoord" false, par "long*" "lAxisNo" true, par "double" "dRadius" false, par "double*" "dEndPos" true, par "double" "dVel" false, par "double" "dAccel" false, par "double" "dDecel" false, par "DWORD" "uCWDir" false, par "DWORD" "uShortDistance" false],
  pro "AxmCircleAngleMove" [par "long" "lCoord" false, par "long*" "lAxisNo" true, par "double*" "dCenterPos" true, par "double" "dAngle" false, par "double" "dVel" false, par "double" "dAccel" false, par "double" "dDecel" false, par "DWORD" "uCWDir" false],
  pro "AxmContiSetAxisMap" [par "long" "lCoord" false, par "long" "lSize" false, par "long*" "lpAxesNo" true],
  pro "AxmContiGetAxisMap" [par "long" "lCoord" false, par "long*" "lpSize" true, par "long*" "lpAxesNo" true],
  pro "AxmContiResetAxisMap" [par "long" "lCoordinate" false],
  pro "AxmContiSetAbsRelMode" [par "long" "lCoord" false, par "DWORD" "uAbsRelMode" false],
  pro "AxmContiGetAbsRelMode" [par "long" "lCoord" false, par "DWORD*" "upAbsRelMode" true],
  pro "AxmContiReadFree" [par "long" "lCoord" false, par "DWORD*" "upQueueFree" true],
  pro "AxmContiReadIndex" [par "long" "lCoord" false, par "long*" "lpQueueIndex" true],
  pro "AxmContiWriteClear" [par "long" "lCoord" false],
  pro "AxmContiBeginNode" [par "long" "lCoord" false],
  pro "AxmContiEndNode" [par "long" "lCoord" false],
  pro "AxmContiStart" [par "long" "lCoord" false, par "DWORD" "dwProfileset" false, par "long" "lAngle" false],
  pro "AxmContiIsMotion" [par "long" "lCoord" false, par "DWORD*" "upInMotion" true],
  pro "AxmContiGetNodeNum" [par "long" "lCoord" false, par "long*" "lpNodeNum" true],
  pro "AxmContiGetTotalNodeNum" [par "long" "lCoord" false, par "long*" "lpNodeNum" true],
  pro "AxmContiDigitalOutputBit" [par "long" "lCoord" false, par "long" "lSize" false, par "long" "lModuleType" false, par "long*" "lpModuleNo" true, par "long*" "lpBit" true, par "long*" "lpOffOn" true, par "double*" "dpDistTime" true, par "long*" "lpDistTimeMode" true],
  pro "AxmContiSetConnectionRadius" [par "long" "lCoord" false, par "double" "dRadius" false],
  pro "AxmTriggerSetTimeLevel" [par "long" "lAxisNo" false, par "double" "dTrigTime" false, par "DWORD" "uTriggerLevel" false, par "DWORD" "uSelect" false, par "DWORD" "uInterrupt" false],
  pro "AxmTriggerGetTimeLevel" [par "long" "lAxisNo" false, par "double*" "dpTrigTime" true, par "DWORD*" "upTriggerLevel" true, par "DWORD*" "upSelect" true, par "DWORD*" "upInterrupt" true],
  pro "AxmTriggerSetAbsPeriod" [par "long" "lAxisNo" false, par "DWORD" "uMethod" false, par "double" "dPos" false],
  pro "AxmTriggerGetAbsPeriod" [par "long" "lAxisNo" false, par "DWORD*" "upMethod" true, par "double*" "dpPos" true],
  pro "AxmTriggerSetBlock" [par "long" "lAxisNo" false, par "double" "dStartPos" false, par "double" "dEndPos" false, par "double" "dPeriodPos" false],
  pro "AxmTriggerGetBlock" [par "long" "lAxisNo" false, par "double*" "dpStartPos" true, par "double*" "dpEndPos" true, par "double*" "dpPeriodPos" true],
  pro "AxmTriggerOneShot" [par "long" "lAxisNo" false],
  pro "AxmTriggerSetTimerOneshot" [par "long" "lAxisNo" false, par "long" "lmSec" false],
  pro "AxmTriggerOnlyAbs" [par "long" "lAxisNo" false, par "long" "lTrigNum" false, par "double*" "dpTrigPos" true],
  pro "AxmTriggerSetReset" [par "long" "lAxisNo" false],
  pro "AxmTriggerSetPoint" [par "long" "lAxisNo" false, par "double" "dStartPos" false, par "double" "dEndPos" false],
  pro "AxmTriggerGetPoint" [par "long" "lAxisNo" false, par "double*" "dpStrPosition" true, par "double*" "dpEndPos" true],
  pro "AxmTriggerSetPointClear" [par "long" "lAxisNo" false],
  pro "AxmCrcSetMaskLevel" [par "long" "lAxisNo" false, par "DWORD" "uLevel" false, par "DWORD" "uMethod" false],
  pro "AxmCrcGetMaskLevel" [par "long" "lAxisNo" false, par "DWORD*" "upLevel" true, par "DWORD*" "upMethod" true],
  pro "AxmCrcSetOutput" [par "long" "lAxisNo" false, par "DWORD" "uOnOff" false],
  pro "AxmCrcGetOutput" [par "long" "lAxisNo" false, par "DWORD*" "upOnOff" true],
  pro "AxmMPGSetEnable" [par "long" "lAxisNo" false, par "long" "lInputMethod" false, par "long" "lDriveMode" false, par "double" "dMPGPos" false, par "double" "dVel" false, par "double" "dAccel" false],
  pro "AxmMPGGetEnable" [par "long" "lAxisNo" false, par "long*" "lpInputMethod" true, par "long*" "lpDriveMode" true, par "double*" "dpMPGPos" true, par "double*" "dpVel" true, par "double*" "dAccel" true],
  pro "AxmMPGSetRatio" [par "long" "lAxisNo" false, par "DWORD" "uMPGnumerator" false, par "DWORD" "uMPGdenominator" false],
  pro "AxmMPGGetRatio" [par "long" "lAxisNo" false, par "DWORD*" "upMPGnumerator" true, par "DWORD*" "upMPGdenominator" true],
  pro "AxmMPGReset" [par "long" "lAxisNo" false],
  pro "AxmHelixCenterMove" [par "long" "lCoord" false, par "double" "dCenterXPos" false, par "double" "dCenterYPos" false, par "double" "dEndXPos" false, par "double" "dEndYPos" false, par "double" "dZPos" false, par "double" "dVel" false, par "double" "dAccel" false, par "double" "dDecel" false, par "DWORD" "uCWDir" false],
  pro "AxmHelixPointMove" [par "long" "lCoord" false, par "double" "dMidXPos" false, par "double" "dMidYPos" false, par "double" "dEndXPos" false, par "double" "dEndYPos" false, par "double" "dZPos" false, par "double" "dVel" false, par "double" "dAccel" false, par "double" "dDecel" false],
  pro "AxmHelixRadiusMove" [par "long" "lCoord" false, par "double" "dRadius" false, par "double" "dEndXPos" false, par "double" "dEndYPos" false, par "double" "dZPos" false, par "double" "dVel" false, par "double" "dAccel" false, par "double" "dDecel" false, par "DWORD" "uCWDir" false, par "DWORD" "uShortDistance" false],
  pro "AxmHelixAngleMove" [par "long" "lCoord" false, par "double" "dCenterXPos" false, par "double" "dCenterYPos" false, par "double" "dAngle" false, par "double" "dZPos" false, par "double" "dVel" false, par "double" "dAccel" false, par "double" "dDecel" false, par "DWORD" "uCWDir" false],
  pro "AxmHelixPitchMove" [par "long" "lCoordNo" false, par "double*" "dpFirstCenterPos" true, par "double*" "dpSecondCenterPos" true, par "double" "dPitch" false, par "double" "dTraverseDistance" false, par "double" "dVel" false, par "double" "dAccel" false, par "double" "dDecel" false, par "DWORD" "uCWDir" false],
  pro "AxmSplineWrite" [par "long" "lCoord" false, par "long" "lPosSize" false, par "double*" "dpPosX" true, par "double*" "dpPosY" true, par "double" "dVel" false, par "double" "dAccel" false, par "double" "dDecel" false, par "double" "dPosZ" false, par "long" "lPointFactor" false],
  pro "AxmCompensationSet" [par "long" "lAxisNo" false, par "long" "lNumEntry" false, par "double" "dStartPos" false, par "double*" "dpPosition" true, par "double*" "dpCorrection" true, par "DWORD" "dwRollOver" false],
  pro "AxmCompensationGet" [par "long" "lAxisNo" false, par "long*" "lpNumEntry" true, par "double*" "dpStartPos" true, par "double*" "dpPosition" true, par "double*" "dpCorrection" true, par "DWORD*" "dwpRollOver" true],
  pro "AxmCompensationEnable" [par "long" "lAxisNo" false, par "DWORD" "dwEnable" false],
  pro "AxmCompensationIsEnable" [par "long" "lAxisNo" false, par "DWORD*" "dwpEnable" true],
  pro "AxmCompensationGetCorrection" [par "long" "lAxisNo" false, par "double*" "dpCorrection" true],
  pro "AxmCompensationSetBacklash" [par "long" "lAxisNo" false, par "long" "lBacklashDir" false, par "double" "dBacklash" false],
  pro "AxmCompensationGetBacklash" [par "long" "lAxisNo" false, par "long*" "lpBacklashDir" true, par "double*" "dpBacklash" true],
  pro "AxmCompensationEnableBacklash" [par "long" "lAxisNo" false, par "DWORD" "dwEnable" false],
  pro "AxmCompensationIsEnableBacklash" [par "long" "lAxisNo" false, par "DWORD*" "dwpEnable" true],
  pro "AxmCompensationSetLocating" [par "long" "lAxisNo" false, par "double" "dVel" false, par "double" "dAccel" false, par "double" "dDecel" false, par "double" "dWaitTime" false],
  pro "AxmEcamSet" [par "long" "lAxisNo" false, par "long" "lMasterAxis" false, par "long" "lNumEntry" false, par "double" "dMasterStartPos" false, par "double*" "dpMasterPos" true, par "double*" "dpSlavePos" true],
  pro "AxmEcamSetWithSource" [par "long" "lAxisNo" false, par "long" "lMasterAxis" false, par "long" "lNumEntry" false, par "double" "dMasterStartPos" false, par "double*" "dpMasterPos" true, par "double*" "dpSlavePos" true, par "DWORD" "dwSource" false],
  pro "AxmEcamGet" [par "long" "lAxisNo" false, par "long*" "lpMasterAxis" true, par "long*" "lpNumEntry" true, par "double*" "dpMasterStartPos" true, par "double*" "dpMasterPos" true, par "double*" "dpSlavePos" true],
  pro "AxmEcamGetWithSource" [par "long" "lAxisNo" false, par "long*" "lpMasterAxis" true, par "long*" "lpNumEntry" true, par "double*" "dpMasterStartPos" true, par "double*" "dpMasterPos" true, par "double*" "dpSlavePos" true, par "DWORD*" "dwpSource" true],
  pro "AxmEcamEnableBySlave" [par "long" "lAxisNo" false, par "DWORD" "dwEnable" false],
  pro "AxmEcamEnableByMaster" [par "long" "lAxisNo" false, par "DWORD" "dwEnable" false],
  pro "AxmEcamIsSlaveEnable" [par "long" "lAxisNo" false, par "DWORD*" "dwpEnable" true],
  pro "AxmStatusSetServoMonitor" [par "long" "lAxisNo" false, par "DWORD" "dwSelMon" false, par "double" "dActionValue" false, par "DWORD" "dwAction" false],
  pro "AxmStatusGetServoMonitor" [par "long" "lAxisNo" false, par "DWORD" "dwSelMon" false, par "double*" "dpActionValue" true, par "DWORD*" "dwpAction" true],
  pro "AxmStatusSetServoMonitorEnable" [par "long" "lAxisNo" false, par "DWORD" "dwEnable" false],
  pro "AxmStatusGetServoMonitorEnable" [par "long" "lAxisNo" false, par "DWORD*" "dwpEnable" true],
  pro "AxmStatusReadServoMonitorFlag" [par "long" "lAxisNo" false, par "DWORD" "dwSelMon" false, par "DWORD*" "dwpMonitorFlag" true, par "double*" "dpMonitorValue" true],
  pro "AxmStatusReadServoMonitorValue" [par "long" "lAxisNo" false, par "DWORD" "dwSelMon" false, par "double*" "dpMonitorValue" true],
  pro "AxmStatusSetReadServoLoadRatio" [par "long" "lAxisNo" false, par "DWORD" "dwSelMon" false],
  pro "AxmStatusReadServoLoadRatio" [par "long" "lAxisNo" false, par "double*" "dpMonitorValue" true],
  pro "AxmMotSetScaleCoeff" [par "long" "lAxisNo" false, par "long" "lScaleCoeff" false],
  pro "AxmMotGetScaleCoeff" [par "long" "lAxisNo" false, par "long*" "lpScaleCoeff" true],
  pro "AxmMoveSignalSearchEx" [par "long" "lAxisNo" false, par "double" "dVel" false, par "double" "dAccel" false, par "long" "lDetectSignal" false, par "long" "lSignalEdge" false, par "long" "lSignalMethod" false],
  pro "AxmMoveToAbsPos" [par "long" "lAxisNo" false, par "double" "dPos" false, par "double" "dVel" false, par "double" "dAccel" false, par "double" "dDecel" false],
  pro "AxmStatusReadVelEx" [par "long" "lAxisNo" false, par "double*" "dpVel" true],
  pro "AxmMotSetElectricGearRatio" [par "long" "lAxisNo" false, par "long" "lNumerator" false, par "long" "lDenominator" false],
  pro "AxmMotGetElectricGearRatio" [par "long" "lAxisNo" false, par "long*" "lpNumerator" true, par "long*" "lpDenominator" true],
  pro "AxmMotSetTorqueLimit" [par "long" "lAxisNo" false, par "double" "dbPlusDirTorqueLimit" false, par "double" "dbMinusDirTorqueLimit" false],
  pro "AxmMotGetTorqueLimit" [par "long" "lAxisNo" false, par "double*" "dbpPlusDirTorqueLimit" true, par "double*" "dbpMinusDirTorqueLimit" true],
  pro "AxmMotSetTorqueLimitEx" [par "long" "lAxisNo" false, par "double" "dbPlusDirTorqueLimit" false, par "double" "dbMinusDirTorqueLimit" false],
  pro "AxmMotGetTorqueLimitEx" [par "long" "lAxisNo" false, par "double*" "dbpPlusDirTorqueLimit" true, par "double*" "dbpMinusDirTorqueLimit" true],
  pro "AxmMotSetTorqueLimitAtPos" [par "long" "lAxisNo" false, par "double" "dbPlusDirTorqueLimit" false, par "double" "dbMinusDirTorqueLimit" false, par "double" "dPosition" false, par "long" "lTarget" false],
  pro "AxmMotGetTorqueLimitAtPos" [par "long" "lAxisNo" false, par "double*" "dbpPlusDirTorqueLimit" true, par "double*" "dbpMinusDirTorqueLimit" true, par "double*" "dpPosition" true, par "long*" "lpTarget" true],
  pro "AxmMotSetTorqueLimitEnable" [par "long" "lAxisNo" false, par "DWORD" "uUse" false],
  pro "AxmMotGetTorqueLimitEnable" [par "long" "lAxisNo" false, par "DWORD*" "upUse" true],
  pro "AxmOverridePosSetFunction" [par "long" "lAxisNo" false, par "DWORD" "dwUsage" false, par "long" "lDecelPosRatio" false, par "double" "dReserved" false],
  pro "AxmOverridePosGetFunction" [par "long" "lAxisNo" false, par "DWORD*" "dwpUsage" true, par "long*" "lpDecelPosRatio" true, par "double*" "dpReserved" true],
  pro "AxmSignalSetWriteOutputBitAtPos" [par "long" "lAxisNo" false, par "long" "lModuleNo" false, par "long" "lOffset" false, par "DWORD" "uValue" false, par "double" "dPosition" false, par "long" "lTarget" false],
  pro "AxmSignalGetWriteOutputBitAtPos" [par "long" "lAxisNo" false, par "long*" "lpModuleNo" true, par "long*" "lOffset" true, par "DWORD*" "upValue" true, par "double*" "dpPosition" true, par "long*" "lpTarget" true],
  pro "AxmAdvVSTSetParameter" [par "long" "lCoord" false, par "DWORD" "dwISTSize" false, par "double*" "dbpFrequency" true, par "double*" "dbpDampingRatio" true, par "DWORD*" "dwpImpulseCount" true],
  pro "AxmAdvVSTGetParameter" [par "long" "lCoord" false, par "DWORD*" "dwpISTSize" true, par "double*" "dbpFrequency" true, par "double*" "dbpDampingRatio" true, par "DWORD*" "dwpImpulseCount" true],
  pro "AxmAdvVSTSetEnabele" [par "long" "lCoord" false, par "DWORD" "dwISTEnable" false],
  pro "AxmAdvVSTGetEnabele" [par "long" "lCoord" false, par "DWORD*" "dwpISTEnable" true],
  pro "AxmAdvLineMove" [par "long" "lCoordinate" false, par "double*" "dPosition" true, par "double" "dMaxVelocity" false, par "double" "dStartVel" false, par "double" "dStopVel" false, par "double" "dMaxAccel" false, par "double" "dMaxDecel" false],
  pro "AxmAdvOvrLineMove" [par "long" "lCoordinate" false, par "double*" "dPosition" true, par "double" "dMaxVelocity" false, par "double" "dStartVel" false, par "double" "dStopVel" false, par "double" "dMaxAccel" false, par "double" "dMaxDecel" false, par "long" "lOverrideMode" false],
  pro "AxmAdvCircleCenterMove" [par "long" "lCoord" false, par "long*" "lAxisNo" true, par "double*" "dCenterPos" true, par "double*" "dEndPos" true, par "double" "dVel" false, par "double" "dStartVel" false, par "double" "dStopVel" false, par "double" "dAccel" false, par "double" "dDecel" false, par "DWORD" "uCWDir" false],
  pro "AxmAdvCirclePointMove" [par "long" "lCoord" false, par "long*" "lAxisNo" true, par "double*" "dMidPos" true, par "double*" "dEndPos" true, par "double" "dVel" false, par "double" "dStartVel" false, par "double" "dStopVel" false, par "double" "dAccel" false, par "double" "dDecel" false, par "long" "lArcCircle" false],
  pro "AxmAdvCircleAngleMove" [par "long" "lCoord" false, par "long*" "lAxisNo" true, par "double*" "dCenterPos" true, par "double" "dAngle" false, par "double" "dVel" false, par "double" "dStartVel" false, par "double" "dStopVel" false, par "double" "dAccel" false, par "double" "dDecel" false, par "DWORD" "uCWDir" false],
  pro "AxmAdvCircleRadiusMove" [par "long" "lCoord" false, par "long*" "lAxisNo" true, par "double" "dRadius" false, par "double*" "dEndPos" true, par "double" "dVel" false, par "double" "dStartVel" false, par "double" "dStopVel" false, par "double" "dAccel" false, par "double" "dDecel" false, par "DWORD" "uCWDir" false, par "DWORD" "uShortDistance" false],
  pro "AxmAdvOvrCircleRadiusMove" [par "long" "lCoord" false, par "long*" "lAxisNo" true, par "double" "dRadius" false, par "double*" "dEndPos" true, par "double" "dVel" false, par "double" "dStartVel" false, par "double" "dStopVel" false, par "double" "dAccel" false, par "double" "dDecel" false, par "DWORD" "uCWDir" false, par "DWORD" "uShortDistance" false, par "long" "lOverrideMode" false],
  pro "AxmAdvHelixCenterMove" [par "long" "lCoord" false, par "double" "dCenterXPos" false, par "double" "dCenterYPos" false, par "double" "dEndXPos" false, par "double" "dEndYPos" false, par "double" "dZPos" false, par "double" "dVel" false, par "double" "dStartVel" false, par "double" "dStopVel" false, par "double" "dAccel" false, par "double" "dDecel" false, par "DWORD" "uCWDir" false],
  pro "AxmAdvHelixPointMove" [par "long" "lCoord" false, par "double" "dMidXPos" false, par "double" "dMidYPos" false, par "double" "dEndXPos" false, par "double" "dEndYPos" false, par "double" "dZPos" false, par "double" "dVel" false, par "double" "dStartVel" false, par "double" "dStopVel" false, par "double" "dAccel" false, par "double" "dDecel" false],
  pro "AxmAdvHelixAngleMove" [par "long" "lCoord" false, par "double" "dCenterXPos" false, par "double" "dCenterYPos" false, par "double" "dAngle" false, par "double" "dZPos" false, par "double" "dVel" false, par "double" "dStartVel" false, par "double" "dStopVel" false, par "double" "dAccel" false, par "double" "dDecel" false, par "DWORD" "uCWDir" false],
  pro "AxmAdvHelixRadiusMove" [par "long" "lCoord" false, par "double" "dRadius" false, par "double" "dEndXPos" false, par "double" "dEndYPos" false, par "double" "dZPos" false, par "double" "dVel" false, par "double" "dStartVel" false, par "double" "dStopVel" false, par "double" "dAccel" false, par "double" "dDecel" false, par "DWORD" "uCWDir" false, par "DWORD" "uShortDistance" false],
  pro "AxmAdvOvrHelixRadiusMove" [par "long" "lCoord" false, par "double" "dRadius" false, par "double" "dEndXPos" false, par "double" "dEndYPos" false, par "double" "dZPos" false, par "double" "dVel" false, par "double" "dStartVel" false, par "double" "dStopVel" false, par "double" "dAccel" false, par "double" "dDecel" false, par "DWORD" "uCWDir" false, par "DWORD" "uShortDistance" false, par "long" "lOverrideMode" false],
  pro "AxmAdvScriptLineMove" [par "long" "lCoordinate" false, par "double*" "dPosition" true, par "double" "dMaxVelocity" false, par "double" "dStartVel" false, par "double" "dStopVel" false, par "double" "dMaxAccel" false, par "double" "dMaxDecel" false, par "DWORD" "dwScript" false, par "long" "lScirptAxisNo" false, par "double" "dScriptPos" false],
  pro "AxmAdvScriptOvrLineMove" [par "long" "lCoordinate" false, par "double*" "dPosition" true, par "double" "dMaxVelocity" false, par "double" "dStartVel" false, par "double" "dStopVel" false, par "double" "dMaxAccel" false, par "double" "dMaxDecel" false, par "long" "lOverrideMode" false, par "DWORD" "dwScript" false, par "long" "lScirptAxisNo" false, par "double" "dScriptPos" false],
  pro "AxmAdvScriptCircleCenterMove" [par "long" "lCoord" false, par "long*" "lAxisNo" true, par "double*" "dCenterPos" true, par "double*" "dEndPos" true, par "double" "dVel" false, par "double" "dStartVel" false, par "double" "dStopVel" false, par "double" "dAccel" false, par "double" "dDecel" false, par "DWORD" "uCWDir" false, par "DWORD" "dwScript" false, par "long" "lScirptAxisNo" false, par "double" "dScriptPos" false],
  pro "AxmAdvScriptCirclePointMove" [par "long" "lCoord" false, par "long*" "lAxisNo" true, par "double*" "dMidPos" true, par "double*" "dEndPos" true, par "double" "dVel" false, par "double" "dStartVel" false, par "double" "dStopVel" false, par "double" "dAccel" false, par "double" "dDecel" false, par "long" "lArcCircle" false, par "DWORD" "dwScript" false, par "long" "lScirptAxisNo" false, par "double" "dScriptPos" false],
  pro "AxmAdvScriptCircleAngleMove" [par "long" "lCoord" false, par "long*" "lAxisNo" true, par "double*" "dCenterPos" true, par "double" "dAngle" false, par "double" "dVel" false, par "double" "dStartVel" false, par "double" "dStopVel" false, par "double" "dAccel" false, par "double" "dDecel" false, par "DWORD" "uCWDir" false, par "DWORD" "dwScript" false, par "long" "lScirptAxisNo" false, par "double" "dScriptPos" false],
  pro "AxmAdvScriptCircleRadiusMove" [par "long" "lCoord" false, par "long*" "lAxisNo" true, par "double" "dRadius" false, par "double*" "dEndPos" true, par "double" "dVel" false, par "double" "dStartVel" false, par "double" "dStopVel" false, par "double" "dAccel" false, par "double" "dDecel" false, par "DWORD" "uCWDir" false, par "DWORD" "uShortDistance" false, par "DWORD" "dwScript" false, par "long" "lScirptAxisNo" false, par "double" "dScriptPos" false],
  pro "AxmAdvScriptOvrCircleRadiusMove" [par "long" "lCoord" false, par "long*" "lAxisNo" true, par "double" "dRadius" false, par "double*" "dEndPos" true, par "double" "dVel" false, par "double" "dStartVel" false, par "double" "dStopVel" false, par "double" "dAccel" false, par "double" "dDecel" false, par "DWORD" "uCWDir" false, par "DWORD" "uShortDistance" false, par "long" "lOverrideMode" false, par "DWORD" "dwScript" false, par "long" "lScirptAxisNo" false, par "double" "dScriptPos" false],
  pro "AxmAdvScriptHelixCenterMove" [par "long" "lCoord" false, par "double" "dCenterXPos" false, par "double" "dCenterYPos" false, par "double" "dEndXPos" false, par "double" "dEndYPos" false, par "double" "dZPos" false, par "double" "dVel" false, par "double" "dStartVel" false, par "double" "dStopVel" false, par "double" "dAccel" false, par "double" "dDecel" false, par "DWORD" "uCWDir" false, par "DWORD" "dwScript" false, par "long" "lScirptAxisNo" false, par "double" "dScriptPos" false],
  pro "AxmAdvScriptHelixPointMove" [par "long" "lCoord" false, par "double" "dMidXPos" false, par "double" "dMidYPos" false, par "double" "dEndXPos" false, par "double" "dEndYPos" false, par "double" "dZPos" false, par "double" "dVel" false, par "double" "dStartVel" false, par "double" "dStopVel" false, par "double" "dAccel" false, par "double" "dDecel" false, par "DWORD" "dwScript" false, par "long" "lScirptAxisNo" false, par "double" "dScriptPos" false],
  pro "AxmAdvScriptHelixAngleMove" [par "long" "lCoord" false, par "double" "dCenterXPos" false, par "double" "dCenterYPos" false, par "double" "dAngle" false, par "double" "dZPos" false, par "double" "dVel" false, par "double" "dStartVel" false, par "double" "dStopVel" false, par "double" "dAccel" false, par "double" "dDecel" false, par "DWORD" "uCWDir" false, par "DWORD" "dwScript" false, par "long" "lScirptAxisNo" false, par "double" "dScriptPos" false],
  pro "AxmAdvScriptHelixRadiusMove" [par "long" "lCoord" false, par "double" "dRadius" false, par "double" "dEndXPos" false, par "double" "dEndYPos" false, par "double" "dZPos" false, par "double" "dVel" false, par "double" "dStartVel" false, par "double" "dStopVel" false, par "double" "dAccel" false, par "double" "dDecel" false, par "DWORD" "uCWDir" false, par "DWORD" "uShortDistance" false, par "DWORD" "dwScript" false, par "long" "lScirptAxisNo" false, par "double" "dScriptPos" false],
  pro "AxmAdvScriptOvrHelixRadiusMove" [par "long" "lCoord" false, par "double" "dRadius" false, par "double" "dEndXPos" false, par "double" "dEndYPos" false, par "double" "dZPos" false, par "double" "dVel" false, par "double" "dStartVel" false, par "double" "dStopVel" false, par "double" "dAccel" false, par "double" "dDecel" false, par "DWORD" "uCWDir" false, par "DWORD" "uShortDistance" false, par "long" "lOverrideMode" false, par "DWORD" "dwScript" false, par "long" "lScirptAxisNo" false, par "double" "dScriptPos" false],
  pro "AxmAdvContiGetNodeNum" [par "long" "lCoordinate" false, par "long*" "lpNodeNum" true],
  pro "AxmAdvContiGetTotalNodeNum" [par "long" "lCoordinate" false, par "long*" "lpNodeNum" true],
  pro "AxmAdvContiReadIndex" [par "long" "lCoordinate" false, par "long*" "lpQueueIndex" true],
  pro "AxmAdvContiReadFree" [par "long" "lCoordinate" false, par "DWORD*" "upQueueFree" true],
  pro "AxmAdvContiWriteClear" [par "long" "lCoordinate" false],
  pro "AxmAdvOvrContiWriteClear" [par "long" "lCoordinate" false],
  pro "AxmAdvContiStart" [par "long" "lCoord" false, par "DWORD" "dwProfileset" false, par "long" "lAngle" false],
  pro "AxmAdvContiStop" [par "long" "lCoordinate" false, par "double" "dDecel" false],
  pro "AxmAdvContiSetAxisMap" [par "long" "lCoord" false, par "long" "lSize" false, par "long*" "lpAxesNo" true],
  pro "AxmAdvContiGetAxisMap" [par "long" "lCoord" false, par "long*" "lpSize" true, par "long*" "lpAxesNo" true],
  pro "AxmAdvContiSetAbsRelMode" [par "long" "lCoord" false, par "DWORD" "uAbsRelMode" false],
  pro "AxmAdvContiGetAbsRelMode" [par "long" "lCoord" false, par "DWORD*" "uAbsRelMode" true],
  pro "AxmAdvContiIsMotion" [par "long" "lCoordinate" false, par "DWORD*" "upInMotion" true],
  pro "AxmAdvContiBeginNode" [par "long" "lCoord" false],
  pro "AxmAdvContiEndNode" [par "long" "lCoord" false],
  pro "AxmMoveMultiStop" [par "long" "lArraySize" false, par "long*" "lpAxesNo" true, par "double*" "dMaxDecel" true],
  pro "AxmMoveMultiEStop" [par "long" "lArraySize" false, par "long*" "lpAxesNo" true],
  pro "AxmMoveMultiSStop" [par "long" "lArraySize" false, par "long*" "lpAxesNo" true],
  pro "AxmStatusReadActVel" [par "long" "lAxisNo" false, par "double*" "dpVel" true],
  pro "AxmStatusReadServoCmdStat" [par "long" "lAxisNo" false, par "DWORD*" "upStatus" true],
  pro "AxmStatusReadServoCmdCtrl" [par "long" "lAxisNo" false, par "DWORD*" "upStatus" true],
  pro "AxmGantryGetMstToSlvOverDist" [par "long" "lAxisNo" false, par "double*" "dpPosition" true],
  pro "AxmGantrySetMstToSlvOverDist" [par "long" "lAxisNo" false, par "double" "dPosition" false],
  pro "AxmSignalReadServoAlarmCode" [par "long" "lAxisNo" false, par "WORD*" "upCodeStatus" true],
  pro "AxmM3ServoCoordinatesSet" [par "long" "lAxisNo" false, par "DWORD" "dwPosData" false, par "DWORD" "dwPos_sel" false, par "DWORD" "dwRefe" false],
  pro "AxmM3ServoBreakOn" [par "long" "lAxisNo" false],
  pro "AxmM3ServoBreakOff" [par "long" "lAxisNo" false],
  pro "AxmM3ServoConfig" [par "long" "lAxisNo" false, par "DWORD" "dwCfMode" false],
  pro "AxmM3ServoSensOn" [par "long" "lAxisNo" false],
  pro "AxmM3ServoSensOff" [par "long" "lAxisNo" false],
  pro "AxmM3ServoSmon" [par "long" "lAxisNo" false],
  pro "AxmM3ServoGetSmon" [par "long" "lAxisNo" false, par "BYTE*" "pbParam" true],
  pro "AxmM3ServoSvOn" [par "long" "lAxisNo" false],
  pro "AxmM3ServoSvOff" [par "long" "lAxisNo" false],
  pro "AxmM3ServoInterpolate" [par "long" "lAxisNo" false, par "DWORD" "dwTPOS" false, par "DWORD" "dwVFF" false, par "DWORD" "dwTFF" false, par "DWORD" "dwTLIM" false],
  pro "AxmM3ServoPosing" [par "long" "lAxisNo" false, par "DWORD" "dwTPOS" false, par "DWORD" "dwSPD" false, par "DWORD" "dwACCR" false, par "DWORD" "dwDECR" false, par "DWORD" "dwTLIM" false],
  pro "AxmM3ServoFeed" [par "long" "lAxisNo" false, par "long" "lSPD" false, par "DWORD" "dwACCR" false, par "DWORD" "dwDECR" false, par "DWORD" "dwTLIM" false],
  pro "AxmM3ServoExFeed" [par "long" "lAxisNo" false, par "long" "lSPD" false, par "DWORD" "dwACCR" false, par "DWORD" "dwDECR" false, par "DWORD" "dwTLIM" false, par "DWORD" "dwExSig1" false, par "DWORD" "dwExSig2" false],
  pro "AxmM3ServoExPosing" [par "long" "lAxisNo" false, par "DWORD" "dwTPOS" false, par "DWORD" "dwSPD" false, par "DWORD" "dwACCR" false, par "DWORD" "dwDECR" false, par "DWORD" "dwTLIM" false, par "DWORD" "dwExSig1" false, par "DWORD" "dwExSig2" false],
  pro "AxmM3ServoZret" [par "long" "lAxisNo" false, par "DWORD" "dwSPD" false, par "DWORD" "dwACCR" false, par "DWORD" "dwDECR" false, par "DWORD" "dwTLIM" false, par "DWORD" "dwExSig1" false, par "DWORD" "dwExSig2" false, par "BYTE" "bHomeDir" false, par "BYTE" "bHomeType" false],
  pro "AxmM3ServoVelctrl" [par "long" "lAxisNo" false, par "DWORD" "dwTFF" false, par "DWORD" "dwVREF" false, par "DWORD" "dwACCR" false, par "DWORD" "dwDECR" false, par "DWORD" "dwTLIM" false],
  pro "AxmM3ServoTrqctrl" [par "long" "lAxisNo" false, par "DWORD" "dwVLIM" false, par "long" "lTQREF" false],
  pro "AxmM3ServoGetParameter" [par "long" "lAxisNo" false, par "WORD" "wNo" false, par "BYTE" "bSize" false, par "BYTE" "bMode" false, par "BYTE*" "pbParam" true],
  pro "AxmM3ServoSetParameter" [par "long" "lAxisNo" false, par "WORD" "wNo" false, par "BYTE" "bSize" false, par "BYTE" "bMode" false, par "BYTE*" "pbParam" true],
  pro "AxmServoCmdExecution" [par "long" "lAxisNo" false, par "DWORD" "dwCommand" false, par "DWORD" "dwSize" false, par "DWORD*" "pdwExcData" true],
  pro "AxmM3ServoGetTorqLimit" [par "long" "lAxisNo" false, par "DWORD*" "dwpTorqLimit" true],
  pro "AxmM3ServoSetTorqLimit" [par "long" "lAxisNo" false, par "DWORD" "dwTorqLimit" false],
  pro "AxmM3ServoGetSendSvCmdIOOutput" [par "long" "lAxisNo" false, par "DWORD*" "dwData" true],
  pro "AxmM3ServoSetSendSvCmdIOOutput" [par "long" "lAxisNo" false, par "DWORD" "dwData" false],
  pro "AxmM3ServoGetSvCmdCtrl" [par "long" "lAxisNo" false, par "DWORD*" "dwData" true],
  pro "AxmM3ServoSetSvCmdCtrl" [par "long" "lAxisNo" false, par "DWORD" "dwData" false],
  pro "AxmM3AdjustmentOperation" [par "long" "lAxisNo" false, par "DWORD" "dwReqCode" false],
  pro "AxmM3ServoSetMonSel" [par "long" "lAxisNo" false, par "DWORD" "dwMon0" false, par "DWORD" "dwMon1" false, par "DWORD" "dwMon2" false],
  pro "AxmM3ServoGetMonSel" [par "long" "lAxisNo" false, par "DWORD*" "upMon0" true, par "DWORD*" "upMon1" true, par "DWORD*" "upMon2" true],
  pro "AxmM3ServoReadMonData" [par "long" "lAxisNo" false, par "DWORD" "dwMonSel" false, par "DWORD*" "dwpMonData" true],
  pro "AxmAdvTorqueContiSetAxisMap" [par "long" "lCoord" false, par "long" "lSize" false, par "long*" "lpAxesNo" true, par "DWORD" "dwTLIM" false, par "DWORD" "dwConMode" false],
  pro "AxmM3ServoSetTorqProfile" [par "long" "lCoord" false, par "long" "lAxisNo" false, par "long" "TorqueSign" false, par "DWORD" "dwVLIM" false, par "DWORD" "dwProfileMode" false, par "DWORD" "dwStdTorq" false, par "DWORD" "dwStopTorq" false],
  pro "AxmM3ServoGetTorqProfile" [par "long" "lCoord" false, par "long" "lAxisNo" false, par "long*" "lpTorqueSign" true, par "DWORD*" "updwVLIM" true, par "DWORD*" "upProfileMode" true, par "DWORD*" "upStdTorq" true, par "DWORD*" "upStopTorq" true],
  pro "AxmSignalSetInposRange" [par "long" "lAxisNo" false, par "double" "dInposRange" false],
  pro "AxmSignalGetInposRange" [par "long" "lAxisNo" false, par "double*" "dpInposRange" true],
  pro "AxmMotSetOverridePosMode" [par "long" "lAxisNo" false, par "DWORD" "dwAbsRelMode" false],
  pro "AxmMotGetOverridePosMode" [par "long" "lAxisNo" false, par "DWORD*" "dwpAbsRelMode" true],
  pro "AxmMotSetOverrideLinePosMode" [par "long" "lCoordNo" false, par "DWORD" "dwAbsRelMode" false],
  pro "AxmMotGetOverrideLinePosMode" [par "long" "lCoordNo" false, par "DWORD*" "dwpAbsRelMode" true],
  pro "AxmMoveStartPosEx" [par "long" "lAxisNo" false, par "double" "dPos" false, par "double" "dVel" false, par "double" "dAccel" false, par "double" "dDecel" false, par "double" "dEndVel" false],
  pro "AxmMovePosEx" [par "long" "lAxisNo" false, par "double" "dPos" false, par "double" "dVel" false, par "double" "dAccel" false, par "double" "dDecel" false, par "double" "dEndVel" false],
  pro "AxmMoveCoordStop" [par "long" "lCoordNo" false, par "double" "dDecel" false],
  pro "AxmMoveCoordEStop" [par "long" "lCoordNo" false],
  pro "AxmMoveCoordSStop" [par "long" "lCoordNo" false],
  pro "AxmOverrideLinePos" [par "long" "lCoordNo" false, par "double*" "dpOverridePos" true],
  pro "AxmOverrideLineVel" [par "long" "lCoordNo" false, par "double" "dOverrideVel" false, par "double*" "dpDistance" true],
  pro "AxmOverrideLineAccelVelDecel" [par "long" "lCoordNo" false, par "double" "dOverrideVelocity" false, par "double" "dMaxAccel" false, par "double" "dMaxDecel" false, par "double*" "dpDistance" true],
  pro "AxmOverrideAccelVelDecelAtPos" [par "long" "lAxisNo" false, par "double" "dPos" false, par "double" "dVel" false, par "double" "dAccel" false, par "double" "dDecel" false, par "double" "dOverridePos" false, par "double" "dOverrideVel" false, par "double" "dOverrideAccel" false, par "double" "dOverrideDecel" false, par "long" "lTarget" false],
  pro "AxmEGearSet" [par "long" "lMasterAxisNo" false, par "long" "lSize" false, par "long*" "lpSlaveAxisNo" true, par "double*" "dpGearRatio" true],
  pro "AxmEGearGet" [par "long" "lMasterAxisNo" false, par "long*" "lpSize" true, par "long*" "lpSlaveAxisNo" true, par "double*" "dpGearRatio" true],
  pro "AxmEGearReset" [par "long" "lMasterAxisNo" false],
  pro "AxmEGearEnable" [par "long" "lMasterAxisNo" false, par "DWORD" "dwEnable" false],
  pro "AxmEGearIsEnable" [par "long" "lMasterAxisNo" false, par "DWORD*" "dwpEnable" true],
  pro "AxmMotSetEndVel" [par "long" "lAxisNo" false, par "double" "dEndVelocity" false],
  pro "AxmMotGetEndVel" [par "long" "lAxisNo" false, par "double*" "dpEndVelocity" true],
  pro "AxmLineMoveWithAxes" [par "long" "lCoord" false, par "long" "lArraySize" false, par "long*" "lpAxisNo" true, par "double*" "dpEndPos" true, par "double" "dVel" false, par "double" "dAccel" false, par "double" "dDecel" false],
  pro "AxmCircleCenterMoveWithAxes" [par "long" "lCoord" false, par "long" "lArraySize" false, par "long*" "lpAxisNo" true, par "double*" "dCenterPosition" true, par "double*" "dEndPosition" true, par "double" "dMaxVelocity" false, par "double" "dMaxAccel" false, par "double" "dMaxDecel" false, par "DWORD" "uCWDir" false, par "DWORD" "dw3DCircle" false],
  pro "AxmCircleRadiusMoveWithAxes" [par "long" "lCoord" false, par "long" "lArraySize" false, par "long*" "lpAxisNo" true, par "double" "dRadius" false, par "double*" "dEndPos" true, par "double" "dVel" false, par "double" "dAccel" false, par "double" "dDecel" false, par "DWORD" "uCWDir" false, par "DWORD" "uShortDistance" false],
  pro "AxmCircleAngleMoveWithAxes" [par "long" "lCoord" false, par "long" "lArraySize" false, par "long*" "lpAxisNo" true, par "double*" "dCenterPos" true, par "double" "dAngle" false, par "double" "dVel" false, par "double" "dAccel" false, par "double" "dDecel" false, par "DWORD" "uCWDir" false],
  pro "AxmCirclePointMoveWithAxes" [par "long" "lCoordNo" false, par "long" "lArraySize" false, par "long*" "lpAxisNo" true, par "double*" "dpMidPos" true, par "double*" "dpEndPos" true, par "double" "dVel" false, par "double" "dAccel" false, par "double" "dDecel" false, par "long" "lArcCircle" false],
  pro "AxmLineMoveWithAxesWithEvent" [par "long" "lCoord" false, par "long" "lArraySize" false, par "long*" "lpAxisNo" true, par "double*" "dpEndPos" true, par "double" "dVel" false, par "double" "dAccel" false, par "double" "dDecel" false, par "DWORD" "dwEventFlag" false],
  pro "AxmCircleCenterMoveWithAxesWithEvent" [par "long" "lCoord" false, par "long" "lArraySize" false, par "long*" "lpAxisNo" true, par "double*" "dCenterPosition" true, par "double*" "dEndPosition" true, par "double" "dMaxVelocity" false, par "double" "dMaxAccel" false, par "double" "dMaxDecel" false, par "DWORD" "uCWDir" false, par "DWORD" "dw3DCircle" false, par "DWORD" "dwEventFlag" false],
  pro "AxmFilletMove" [par "long" "lCoordinate" false, par "double*" "dPosition" true, par "double*" "dFirstVector" true, par "double*" "dSecondVector" true, par "double" "dMaxVelocity" false, par "double" "dMaxAccel" false, par "double" "dMaxDecel" false, par "double" "dRadius" false],
  pro "AxmMovePVT" [par "long" "lAxisNo" false, par "DWORD" "dwArraySize" false, par "double*" "pdPos" true, par "double*" "pdVel" true, par "DWORD*" "pdwUsec" true],
  pro "AxmSyncSetAxisMap" [par "long" "lSyncNo" false, par "long" "lSize" false, par "long*" "lpAxesNo" true],
  pro "AxmSyncClear" [par "long" "lSyncNo" false],
  pro "AxmSyncBegin" [par "long" "lSyncNo" false],
  pro "AxmSyncEnd" [par "long" "lSyncNo" false],
  pro "AxmSyncStart" [par "long" "lSyncNo" false],
  pro "AxmStatusReadRemainQueueCount" [par "long" "lAxisNo" false, par "DWORD*" "pdwRemainQueueCount" true],
  pro "AxmMoveGetStartPosParam" [par "long*" "lpAxisNo" true, par "double*" "dpPos" true, par "double*" "dpVel" true, par "double*" "dpAccel" true, par "double*" "dpDecel" true],
  pro "AxmMoveGetPosParam" [par "long*" "lpAxisNo" true, par "double*" "dpPos" true, par "double*" "dpVel" true, par "double*" "dpAccel" true, par "double*" "dpDecel" true],
  pro "AxmMoveGetVelParam" [par "long*" "lpAxisNo" true, par "double*" "dpVel" true, par "double*" "dpAccel" true, par "double*" "dpDecel" true],
  pro "AxmMoveGetStartMultiPosParam" [par "long*" "lpArraySize" true, par "long*" "lpAxesNoArrGet" true, par "double*" "dpPosArrGet" true, par "double*" "dpVelArrGet" true, par "double*" "dpAccelArrGet" true, par "double*" "dpDecelArrGet" true],
  pro "AxmMoveGetToAbsPosParam" [par "long*" "lpAxisNo" true, par "double*" "dpPos" true, par "double*" "dpVel" true, par "double*" "dpAccel" true, par "double*" "dpDecel" true],
  pro "AxmMoveGetLastParam" [par "long" "lAxisNo" false, par "double*" "dpPos" true, par "double*" "dpVel" true, par "double*" "dpAccel" true, par "double*" "dpDecel" true]
]

/-- Fields of the C struct MOTION_INFO (AXHS.h, lines 1689 to 1698):
name, type, and the mask bit given in square brackets in the source
comment of each data field (dwMask itself carries no mask bit; the
source comment on dwMask gives 0x1F as the read-everything mask). -/
def MOTION_INFO : List (String × String × Option Nat) := [
  ("dCmdPos",   "double", some 0x01),
  ("dActPos",   "double", some 0x02),
  ("dwMechSig", "DWORD",  some 0x04),
  ("dwDrvStat", "DWORD",  some 0x08),
  ("dwInput",   "DWORD",  some 0x10),
  ("dwOutput",  "DWORD",  some 0x10),
  ("dwMask",    "DWORD",  none)]

/-- The C macro MAX_BOARD_COUNT (AXHS.h, line 1702). -/
def MAX_BOARD_COUNT : Nat := 20

/-- The C struct SIIIHBoardInfo (AXHS.h, lines 1705 to 1709): a flag for
whether the board is of the SIIIH family (C type BOOL) and the number of
daisy-chained nodes attached to it (C type long). -/
structure SIIIHBoardInfo where
  bIsSIIIHBoard : Bool
  lNodeCount : Int

/-- The C struct SCAN_RESULT (AXHS.h, lines 1711 to 1715): a total board
count (C type long) and a fixed-capacity array of exactly MAX_BOARD_COUNT
SIIIHBoardInfo entries, embedded as a function from Fin MAX_BOARD_COUNT. -/
structure SCAN_RESULT where
  lTotalBoardCount : Int
  BoardInfo : Fin MAX_BOARD_COUNT → SIIIHBoardInfo

/-- Fields of the C struct AXT_MOVE_START_POS_PARAM (AXHS.h, lines 2597
to 2604). -/
def AXT_MOVE_START_POS_PARAM : List CParam :=
  [par "long" "lAxisNo" false, par "double" "dPos" false,
   par "double" "dVel" false, par "double" "dAccel" false,
   par "double" "dDecel" false]

/-- Fields of the C struct AXT_MOVE_POS_PARAM (AXHS.h, lines 2606 to
2613). -/
def AXT_MOVE_POS_PARAM : List CParam :=
  [par "long" "lAxisNo" false, par "double" "dPos" false,
   par "double" "dVel" false, par "double" "dAccel" false,
   par "double" "dDecel" false]

/-- Fields of the C struct AXT_MOVE_VEL_PARAM (AXHS.h, lines 2615 to
2621). -/
def AXT_MOVE_VEL_PARAM : List CParam :=
  [par "long" "lAxisNo" false, par "double" "dVel" false,
   par "double" "dAccel" false, par "double" "dDecel" false]

/-- Fields of the C struct AXT_MOVE_START_MULTI_POS_PARAM (AXHS.h, lines
2623 to 2631). -/
def AXT_MOVE_START_MULTI_POS_PARAM : List CParam :=
  [par "long" "lArraySize" false, par "long*" "lMultiAxesNo" true,
   par "double*" "dMultiPos" true, par "double*" "dMultiVel" true,
   par "double*" "dMultiAccel" true, par "double*" "dMultiDecel" true]

/-- Fields of the C struct AXT_MOVE_TO_ABS_POS_PARAM (AXHS.h, lines 2634
to 2641). -/
def AXT_MOVE_TO_ABS_POS_PARAM : List CParam :=
  [par "long" "lAxisNo" false, par "double" "dPos" false,
   par "double" "dVel" false, par "double" "dAccel" false,
   par "double" "dDecel" false]

/-- Values of the AXT_FUNC_RESULT enumerators whose name begins with the
given prefix, in source order. -/
def codesIn (p : String) : List Nat :=
  (AXT_FUNC_RESULT.filter (fun e => pfx p.data e.fst.data)).map (fun e => e.snd)

/-- The enumerators named with the given prefix are nonempty and span
exactly the band from lo to hi: both endpoints are attained and every
value lies between them. -/
abbrev bandIn (p : String) (lo hi : Nat) : Prop :=
  codesIn p ≠ [] ∧ lo ∈ codesIn p ∧ hi ∈ codesIn p ∧
  ∀ v ∈ codesIn p, lo ≤ v ∧ v ≤ hi

/-- Parameter list of the AXM.h prototype with the given name (empty when
no prototype has that name). -/
def paramsOf (s : String) : List CParam :=
  ((axmProtos.find? (fun p => p.name == s)).map CProto.params).getD []

/-- Membership in the query-function families the specification names:
the AxmInfo family, the AxmStatusRead family, and the Axm-Get family
(a name containing "Get"). -/
def isQueryName (s : String) : Bool :=
  pfx "AxmInfo".data s.data || pfx "AxmStatusRead".data s.data ||
  hasSub "Get".data s.data


/-- C1: every one of the 391 Axm prototypes of AXM.h is declared inside the
extern-C block with the `__stdcall` calling convention and returns the type
DWORD, whose documented value vocabulary is the AXT_FUNC_RESULT enumeration
with success being the value 0 (AXT_RT_SUCCESS = 0). -/
theorem c1_abi_extern_stdcall_dword :
    axmProtos.length = 391 ∧
    (∀ p ∈ axmProtos, p.inExternC = true ∧ p.cc = "__stdcall" ∧ p.ret = "DWORD") ∧
    ("AXT_RT_SUCCESS", 0) ∈ AXT_FUNC_RESULT := by
  decide

/-- C2 counterexample: the claim that each subsystem's failure codes occupy a
numeric band disjoint from the bands of other subsystems is false, because
every AXT_RT_QUEUE_ code lies strictly between the motion codes 4001 and 6002,
so the queue band sits inside the motion band; and the enumeration holds 457
enumerators (456 failure codes plus success), not roughly 800. -/
theorem c2_queue_band_inside_motion_band :
    4001 ∈ codesIn "AXT_RT_MOTION_" ∧ 6002 ∈ codesIn "AXT_RT_MOTION_" ∧
    codesIn "AXT_RT_QUEUE_" ≠ [] ∧
    (codesIn "AXT_RT_QUEUE_").all (fun v => decide (4001 < v) && decide (v < 6002)) = true ∧
    AXT_FUNC_RESULT.length = 457 := by
  decide


/-- Boolean check that consecutive entries of the list strictly increase. -/
def chainLtB : List Nat → Bool
  | a :: b :: r => decide (a < b) && chainLtB (b :: r)
  | _ => true

/-- A list whose consecutive entries strictly increase is pairwise
increasing. -/
theorem pairwise_lt_of_chainLtB :
    ∀ (l : List Nat), chainLtB l = true → l.Pairwise (fun a b => a < b)
  | [], _ => List.Pairwise.nil
  | [_], _ => by simp
  | a :: b :: r, h => by
      simp only [chainLtB, Bool.and_eq_true, decide_eq_true_eq] at h
      have hp := pairwise_lt_of_chainLtB (b :: r) h.2
      refine List.pairwise_cons.mpr ⟨?_, hp⟩
      intro x hx
      rcases List.mem_cons.mp hx with hxb | hxr
      · exact hxb ▸ h.1
      · exact Nat.lt_trans h.1 (List.rel_of_pairwise_cons hp hxr)

/-- A list whose consecutive entries strictly increase has no duplicates. -/
theorem nodup_of_chainLtB {l : List Nat} (h : chainLtB l = true) : l.Nodup :=
  (pairwise_lt_of_chainLtB l h).imp Nat.ne_of_lt

/-- C2 amended: AXT_FUNC_RESULT defines 456 distinct failure reasons plus
success, grouped by subsystem name prefix; the bands of the AIO, DIO, counter,
COM-port, motion, monitor, macro and MK subsystems are pairwise disjoint, but
the bands of the M3, data-flash and queue codes fall inside the motion band
4001 to 6002. -/
theorem c2_amended_bands :
    AXT_FUNC_RESULT.length = 457 ∧
    (AXT_FUNC_RESULT.map (fun e => e.snd)).Nodup ∧
    bandIn "AXT_RT_AIO_" 2001 2110 ∧
    bandIn "AXT_RT_DIO_" 3001 3109 ∧
    bandIn "AXT_RT_CNT_" 3201 3313 ∧
    bandIn "AXT_RT_COM_" 3401 3508 ∧
    bandIn "AXT_RT_MOTION_" 4001 6002 ∧
    bandIn "AXT_RT_MONITOR_" 6600 6604 ∧
    bandIn "AXT_RT_MACRO_" 6700 6722 ∧
    bandIn "AXT_MK_RT_" 7100 7902 ∧
    bandIn "AXT_RT_M3_" 4500 4500 ∧
    bandIn "AXT_RT_DATA_FLASH" 5000 5001 ∧
    bandIn "AXT_RT_QUEUE_" 5010 5017 := by
  refine ⟨by decide, nodup_of_chainLtB (by decide), ?_, ?_, ?_, ?_, ?_, ?_, ?_, ?_, ?_, ?_, ?_⟩ <;> decide

/-- C3 counterexample: AxmInfoIsInvalidAxisNo and AxmInfoGetAxisStatus are
query functions of the AxmInfo family whose prototypes carry no pointer
parameter at all, so their queried results cannot be written through
output-pointer parameters and are instead conveyed by the DWORD return
value. -/
theorem c3_query_without_output_pointer :
    pro "AxmInfoIsInvalidAxisNo" [par "long" "lAxisNo" false] ∈ axmProtos ∧
    pro "AxmInfoGetAxisStatus" [par "long" "lAxisNo" false] ∈ axmProtos ∧
    isQueryName "AxmInfoIsInvalidAxisNo" = true ∧
    isQueryName "AxmInfoGetAxisStatus" = true ∧
    (∀ p ∈ axmProtos,
      p.name = "AxmInfoIsInvalidAxisNo" ∨ p.name = "AxmInfoGetAxisStatus" →
      ∀ q ∈ p.params, q.ptr = false) := by
  decide

/-- C3 amended: every query function of the ABI (the AxmInfo, Axm-Get and
AxmStatusRead families) except AxmInfoIsInvalidAxisNo and
AxmInfoGetAxisStatus, which take no output pointer and answer through the
DWORD return value, has at least one pointer parameter through which the
queried results are written. -/
theorem c3_amended_query_output_pointers :
    ∀ p ∈ axmProtos, isQueryName p.name = true →
      p.name ≠ "AxmInfoIsInvalidAxisNo" → p.name ≠ "AxmInfoGetAxisStatus" →
      p.params.any (fun q => q.ptr) = true := by
  decide

/-- Witness for the amended C3 theorem at the query function AxmInfoGetAxis,
whose prototype carries three pointer parameters. -/
theorem c3_amended_query_output_pointers_witness :
    (pro "AxmInfoGetAxis"
      [par "long" "lAxisNo" false, par "long*" "lpBoardNo" true,
       par "long*" "lpModulePos" true, par "DWORD*" "upModuleID" true]).params.any
      (fun q => q.ptr) = true :=
  c3_amended_query_output_pointers _ (by decide) (by decide) (by decide) (by decide)

/-- C4 counterexample: no function of the AxmMove family (there are 37 of
them in AXM.h) is declared with a return-mode parameter: the claim that some
move-start functions of the AxmMove family carry an explicit return-mode
parameter is false. -/
theorem c4_no_move_function_has_return_mode_param :
    (axmProtos.filter (fun p => pfx "AxmMove".data p.name.data)).length = 37 ∧
    ¬ ∃ p ∈ axmProtos, pfx "AxmMove".data p.name.data = true ∧
        ∃ q ∈ p.params, q.name = "uReturnMode" := by
  decide

/-- C4 amended: the return-mode enumeration does define
FUNC_RETURN_IMMEDIATE = 0, FUNC_RETURN_BLOCKING = 1 and
FUNC_RETURN_NON_BLOCKING = 2, but the explicit return-mode parameter
uReturnMode selecting blocking versus non-blocking return semantics appears
on the status-read functions AxmStatusReadServoAlarm and
AxmStatusReadServoAlarmHistory, and on no other function of the ABI - in
particular on no AxmMove move-start function. -/
theorem c4_amended_return_mode_on_status_read :
    AXT_MOTION_FUNC_RETURN_MODE =
      [("FUNC_RETURN_IMMEDIATE", 0), ("FUNC_RETURN_BLOCKING", 1),
       ("FUNC_RETURN_NON_BLOCKING", 2)] ∧
    pro "AxmStatusReadServoAlarm"
      [par "long" "lAxisNo" false, par "DWORD" "uReturnMode" false,
       par "DWORD*" "upAlarmCode" true] ∈ axmProtos ∧
    pro "AxmStatusReadServoAlarmHistory"
      [par "long" "lAxisNo" false, par "DWORD" "uReturnMode" false,
       par "long*" "lpCount" true, par "DWORD*" "upAlarmCode" true] ∈ axmProtos ∧
    (∀ p ∈ axmProtos, (∃ q ∈ p.params, q.name = "uReturnMode") →
      p.name = "AxmStatusReadServoAlarm" ∨
      p.name = "AxmStatusReadServoAlarmHistory") := by
  decide

/-- C5: MOTION_INFO holds, in source order, the command position dCmdPos and
actual position dActPos as doubles, the mechanical-signal bitmask dwMechSig,
the driver-status bitmask dwDrvStat, the universal I/O bitmasks dwInput and
dwOutput, and the read mask dwMask as DWORDs; the mask bits of the six data
fields combine to 0x1F, the read-everything mask, and AxmStatusReadMotionInfo
takes an axis number and a pointer to MOTION_INFO. -/
theorem c5_motion_info_layout :
    MOTION_INFO.map (fun f => (f.fst, f.snd.fst)) =
      [("dCmdPos", "double"), ("dActPos", "double"), ("dwMechSig", "DWORD"),
       ("dwDrvStat", "DWORD"), ("dwInput", "DWORD"), ("dwOutput", "DWORD"),
       ("dwMask", "DWORD")] ∧
    MOTION_INFO.foldl (fun a f => a ||| (f.snd.snd.getD 0)) 0 = 0x1F ∧
    pro "AxmStatusReadMotionInfo"
      [par "long" "lAxisNo" false, par "PMOTION_INFO" "pMI" true] ∈ axmProtos := by
  decide

/-- C6: MAX_BOARD_COUNT equals 20, and SCAN_RESULT pairs a total board count
with an array of exactly MAX_BOARD_COUNT SIIIHBoardInfo entries, each made of
the SIIIH-family flag and the daisy-chained node count. -/
theorem c6_scan_result_capacity :
    MAX_BOARD_COUNT = 20 ∧
    Fintype.card (Fin MAX_BOARD_COUNT) = 20 ∧
    (∀ s : SCAN_RESULT, (List.ofFn s.BoardInfo).length = MAX_BOARD_COUNT) ∧
    (∀ b : SIIIHBoardInfo, b = SIIIHBoardInfo.mk b.bIsSIIIHBoard b.lNodeCount) :=
  ⟨rfl, by simp [MAX_BOARD_COUNT], fun s => by simp [MAX_BOARD_COUNT], fun b => rfl⟩

/-- C7 counterexample: the fields of AXT_MOVE_START_MULTI_POS_PARAM mirror the
parameters of AxmMoveStartMultiPos in type but not in name - the struct names
its array fields lMultiAxesNo, dMultiPos, dMultiVel, dMultiAccel, dMultiDecel
while the function names them lpAxisNo, dpPos, dpVel, dpAccel, dpDecel - so
the claim that every bundle struct mirrors its move-start function one-for-one
in name and type is false. -/
theorem c7_multi_pos_param_names_differ :
    AXT_MOVE_START_MULTI_POS_PARAM.map CParam.ty =
      (paramsOf "AxmMoveStartMultiPos").map CParam.ty ∧
    AXT_MOVE_START_MULTI_POS_PARAM.map CParam.name =
      ["lArraySize", "lMultiAxesNo", "dMultiPos", "dMultiVel",
       "dMultiAccel", "dMultiDecel"] ∧
    (paramsOf "AxmMoveStartMultiPos").map CParam.name =
      ["lArraySize", "lpAxisNo", "dpPos", "dpVel", "dpAccel", "dpDecel"] ∧
    AXT_MOVE_START_MULTI_POS_PARAM.map CParam.name ≠
      (paramsOf "AxmMoveStartMultiPos").map CParam.name := by
  decide

/-- C7 amended: the four single-axis bundle structs mirror the parameter lists
of their move-start functions one-for-one in name and type; the fields of
AXT_MOVE_START_MULTI_POS_PARAM mirror the parameters of AxmMoveStartMultiPos
one-for-one in type only, the array-field names differing; and a
corresponding AxmMoveGet accessor exists for every bundle struct. -/
theorem c7_amended_param_struct_mirror :
    AXT_MOVE_START_POS_PARAM = paramsOf "AxmMoveStartPos" ∧
    AXT_MOVE_POS_PARAM = paramsOf "AxmMovePos" ∧
    AXT_MOVE_VEL_PARAM = paramsOf "AxmMoveVel" ∧
    AXT_MOVE_TO_ABS_POS_PARAM = paramsOf "AxmMoveToAbsPos" ∧
    AXT_MOVE_START_MULTI_POS_PARAM.map CParam.ty =
      (paramsOf "AxmMoveStartMultiPos").map CParam.ty ∧
    axmProtos.any (fun p => p.name == "AxmMoveGetStartPosParam") = true ∧
    axmProtos.any (fun p => p.name == "AxmMoveGetPosParam") = true ∧
    axmProtos.any (fun p => p.name == "AxmMoveGetVelParam") = true ∧
    axmProtos.any (fun p => p.name == "AxmMoveGetStartMultiPosParam") = true ∧
    axmProtos.any (fun p => p.name == "AxmMoveGetToAbsPosParam") = true := by
  decide

/-- C8: for every argument position from 1st to 11th, AXT_FUNC_RESULT holds
one code for below-minimum and one for above-maximum with the stated values
1160 through 1253, and the twenty-two codes are pairwise distinct. -/
theorem c8_argument_range_codes :
    ("AXT_RT_1ST_BELOW_MIN_VALUE", 1160) ∈ AXT_FUNC_RESULT ∧
    ("AXT_RT_1ST_ABOVE_MAX_VALUE", 1161) ∈ AXT_FUNC_RESULT ∧
    ("AXT_RT_2ND_BELOW_MIN_VALUE", 1170) ∈ AXT_FUNC_RESULT ∧
    ("AXT_RT_2ND_ABOVE_MAX_VALUE", 1171) ∈ AXT_FUNC_RESULT ∧
    ("AXT_RT_3RD_BELOW_MIN_VALUE", 1180) ∈ AXT_FUNC_RESULT ∧
    ("AXT_RT_3RD_ABOVE_MAX_VALUE", 1181) ∈ AXT_FUNC_RESULT ∧
    ("AXT_RT_4TH_BELOW_MIN_VALUE", 1190) ∈ AXT_FUNC_RESULT ∧
    ("AXT_RT_4TH_ABOVE_MAX_VALUE", 1191) ∈ AXT_FUNC_RESULT ∧
    ("AXT_RT_5TH_BELOW_MIN_VALUE", 1200) ∈ AXT_FUNC_RESULT ∧
    ("AXT_RT_5TH_ABOVE_MAX_VALUE", 1201) ∈ AXT_FUNC_RESULT ∧
    ("AXT_RT_6TH_BELOW_MIN_VALUE", 1210) ∈ AXT_FUNC_RESULT ∧
    ("AXT_RT_6TH_ABOVE_MAX_VALUE", 1211) ∈ AXT_FUNC_RESULT ∧
    ("AXT_RT_7TH_BELOW_MIN_VALUE", 1220) ∈ AXT_FUNC_RESULT ∧
    ("AXT_RT_7TH_ABOVE_MAX_VALUE", 1221) ∈ AXT_FUNC_RESULT ∧
    ("AXT_RT_8TH_BELOW_MIN_VALUE", 1230) ∈ AXT_FUNC_RESULT ∧
    ("AXT_RT_8TH_ABOVE_MAX_VALUE", 1231) ∈ AXT_FUNC_RESULT ∧
    ("AXT_RT_9TH_BELOW_MIN_VALUE", 1240) ∈ AXT_FUNC_RESULT ∧
    ("AXT_RT_9TH_ABOVE_MAX_VALUE", 1241) ∈ AXT_FUNC_RESULT ∧
    ("AXT_RT_10TH_BELOW_MIN_VALUE", 1250) ∈ AXT_FUNC_RESULT ∧
    ("AXT_RT_10TH_ABOVE_MAX_VALUE", 1251) ∈ AXT_FUNC_RESULT ∧
    ("AXT_RT_11TH_BELOW_MIN_VALUE", 1252) ∈ AXT_FUNC_RESULT ∧
    ("AXT_RT_11TH_ABOVE_MAX_VALUE", 1253) ∈ AXT_FUNC_RESULT ∧
    ([1160, 1161, 1170, 1171, 1180, 1181, 1190, 1191, 1200, 1201, 1210, 1211,
      1220, 1221, 1230, 1231, 1240, 1241, 1250, 1251, 1252, 1253] :
      List Nat).Nodup := by
  refine ⟨?_, ?_, ?_, ?_, ?_, ?_, ?_, ?_, ?_, ?_, ?_, ?_, ?_, ?_, ?_, ?_, ?_,
    ?_, ?_, ?_, ?_, ?_, ?_⟩ <;> decide

/-- C9: all enumerator values of AXT_FUNC_RESULT are pairwise distinct, the
only enumerator with value 0 is AXT_RT_SUCCESS, and every other enumerator
is at least 1001, so a returned code equals 0 exactly when it denotes
success and no failure code can be mistaken for another. -/
theorem c9_result_codes_distinct_and_nonzero :
    (AXT_FUNC_RESULT.map (fun e => e.snd)).Nodup ∧
    ("AXT_RT_SUCCESS", 0) ∈ AXT_FUNC_RESULT ∧
    (∀ e ∈ AXT_FUNC_RESULT, e.fst ≠ "AXT_RT_SUCCESS" → 1001 ≤ e.snd) ∧
    (∀ e ∈ AXT_FUNC_RESULT, e.snd = 0 ↔ e.fst = "AXT_RT_SUCCESS") := by
  refine ⟨nodup_of_chainLtB (by decide), by decide, by decide, by decide⟩

/-- C10: in MOTION_INFO the universal-signal input field dwInput and the
universal-signal output field dwOutput are tagged with the same mask bit
0x10, the six data fields carry only five distinct mask bits, and the full
read mask is 0x1F, so universal input and output snapshots can only be
requested together. -/
theorem c10_input_output_share_mask_bit :
    (MOTION_INFO.find? (fun f => f.fst == "dwInput")).map (fun f => f.snd.snd) =
      some (some 0x10) ∧
    (MOTION_INFO.find? (fun f => f.fst == "dwOutput")).map (fun f => f.snd.snd) =
      some (some 0x10) ∧
    (MOTION_INFO.filterMap (fun f => f.snd.snd)).length = 6 ∧
    (MOTION_INFO.filterMap (fun f => f.snd.snd)).dedup = [1, 2, 4, 8, 16] ∧
    MOTION_INFO.foldl (fun a f => a ||| (f.snd.snd.getD 0)) 0 = 0x1F := by
  decide

end AXL
